import Mathlib

/-!
Verification development for the smart-city chat assistant repository.

The Python sources are shallowly embedded in Lean:
* Python/JSON values become the inductive type `JVal`; dictionaries are
  insertion-ordered association lists, as in CPython.
* External collaborators (the Gemini LLM, the Tweepy client, the Firestore
  database, the vendor tool wrappers that only call a vendor SDK) are
  parameters (`IntentEnv`, `SentEnv`, `Env`); computations that can raise a
  Python exception return `Except PyExc`.
* The regex cascade of `agents/intent_extractor/agent.py` is embedded with a
  small backtracking matcher reproducing `re.search` semantics (leftmost
  match, greedy quantifiers, left-biased alternation, IGNORECASE) for exactly
  the constructs those patterns use.
-/

/-- A Python exception, by kind (the message is irrelevant to the claims). -/
inductive PyExc where
  | typeError
  | keyError (k : String)
  | attributeError
  | externalError   -- an exception raised inside an external collaborator
deriving DecidableEq, Repr

/-- A Python/JSON value.  `jnum` holds the exact rational denoted by a JSON
numeric literal; `jspecial` holds the non-standard tokens `NaN`, `Infinity`,
`-Infinity` that `json.loads` accepts.  `jobj` is an insertion-ordered
association list, like a CPython dict. -/
inductive JVal where
  | jstr : String → JVal
  | jnum : ℚ → JVal
  | jspecial : String → JVal
  | jbool : Bool → JVal
  | jnull : JVal
  | jarr : List JVal → JVal
  | jobj : List (String × JVal) → JVal
deriving Repr

open JVal

mutual

/-- Python `==` on values (structural; numbers compare exactly). -/
def JVal.beq : JVal → JVal → Bool
  | jstr a, jstr b => a == b
  | jnum a, jnum b => a == b
  | jspecial a, jspecial b => a == b
  | jbool a, jbool b => a == b
  | jnull, jnull => true
  | jarr a, jarr b => JVal.beqL a b
  | jobj a, jobj b => JVal.beqO a b
  | _, _ => false

def JVal.beqL : List JVal → List JVal → Bool
  | [], [] => true
  | a :: as, b :: bs => JVal.beq a b && JVal.beqL as bs
  | _, _ => false

def JVal.beqO : List (String × JVal) → List (String × JVal) → Bool
  | [], [] => true
  | (k, a) :: as, (l, b) :: bs => k == l && JVal.beq a b && JVal.beqO as bs
  | _, _ => false

end

instance : BEq JVal := ⟨JVal.beq⟩

/-- Python truthiness of a value (`bool(v)`). -/
def pyTruthy : JVal → Bool
  | jstr s => !s.isEmpty
  | jnum q => q != 0
  | jspecial s => s != "NaN" || true   -- NaN, Infinity are truthy in Python
  | jbool b => b
  | jnull => false
  | jarr l => !l.isEmpty
  | jobj l => !l.isEmpty

/-- Python's `x or y` on values: `x` if truthy, else `y`. -/
def pyOr (x y : JVal) : JVal := if pyTruthy x then x else y

/-- Characters treated as whitespace by Python's `str.strip()` (ASCII part). -/
def pyIsWs (c : Char) : Bool :=
  c = ' ' || c = '\t' || c = '\n' || c = '\r' || c = '\x0b' || c = '\x0c'

/-- Python `str.strip()`. -/
def pyStrip (s : String) : String :=
  String.mk (((s.data.dropWhile pyIsWs).reverse.dropWhile pyIsWs).reverse)

/-- Python `str.lower()` (ASCII). -/
def pyLower (s : String) : String := String.mk (s.data.map Char.toLower)

/-- Python `needle in hay` for strings (substring containment). -/
def listInfixOf (n : List Char) : List Char → Bool
  | [] => n.isEmpty
  | c :: t => n.isPrefixOf (c :: t) || listInfixOf n t

def containsSub (needle hay : String) : Bool := listInfixOf needle.data hay.data

/-- Python `str.startswith`. -/
def pyStartsWith (s pre : String) : Bool := pre.data.isPrefixOf s.data

/-- `d.get(k)` on a dict. -/
def dictGet? (d : List (String × JVal)) (k : String) : Option JVal :=
  match d with
  | [] => none
  | (k', v) :: t => if k' = k then some v else dictGet? t k

/-- `d.get(k, dflt)` on a dict. -/
def dictGetD (d : List (String × JVal)) (k : String) (dflt : JVal) : JVal :=
  (dictGet? d k).getD dflt

/-- `k in d` on a dict. -/
def dictHas (d : List (String × JVal)) (k : String) : Bool :=
  (dictGet? d k).isSome

/-- `d[k] = v` on a dict: overwrite in place (keeping the key's original
position, as CPython does) or append. -/
def dictSet (d : List (String × JVal)) (k : String) (v : JVal) : List (String × JVal) :=
  match d with
  | [] => [(k, v)]
  | (k', v') :: t => if k' = k then (k, v) :: t else (k', v') :: dictSet t k v

/-- Python `str(v)`.  Faithful for strings, booleans and None; the rendering
of numbers and containers is approximated (no theorem in this file depends
on it). -/
def pyToStr : JVal → String
  | jstr s => s
  | jnum q => toString q.num ++ (if q.den = 1 then "" else "/" ++ toString q.den)
  | jspecial s => s
  | jbool b => if b then "True" else "False"
  | jnull => "None"
  | jarr _ => "<list>"
  | jobj _ => "<dict>"

/-- Python `needle in v` where `v` is an arbitrary value: substring test on a
string, key test on a dict, membership on a list; `TypeError` otherwise. -/
def pyIn (needle : String) : JVal → Except PyExc Bool
  | jstr s => .ok (containsSub needle s)
  | jobj d => .ok (dictHas d needle)
  | jarr l => .ok (l.any (· == jstr needle))
  | _ => .error .typeError

/-- Python `sep.join(v)`: elements of a list must be strings; joining a
string joins its characters; `TypeError` otherwise. -/
def pyJoin (sep : String) : JVal → Except PyExc String
  | jarr l => do
      let parts ← l.mapM (fun v => match v with
        | jstr s => Except.ok s
        | _ => Except.error PyExc.typeError)
      return String.intercalate sep parts
  | jstr s => .ok (String.intercalate sep (s.data.map (fun c => String.mk [c])))
  | _ => .error .typeError

/-- Python `s.split(sep)` for a one-character separator: split at every
occurrence, preserving empty pieces. -/
def pySplitAux (sep : Char) (acc : List Char) : List Char → List String
  | [] => [String.mk acc.reverse]
  | x :: t =>
      if x = sep then String.mk acc.reverse :: pySplitAux sep [] t
      else pySplitAux sep (x :: acc) t

def pySplit (s : String) (sep : Char) : List String := pySplitAux sep [] s.data

/-- Python `s.replace(" ", "")`: remove every space. -/
def pyRemoveSpaces (s : String) : String :=
  String.mk (s.data.filter (fun c => !(c = ' ')))

/-! ## A small regex engine

Replicates `re.search(pattern, s, re.IGNORECASE)` for the constructs
appearing in the source patterns: literal characters, the classes `\w`,
`\s`, `[\w\s]`, `[\w\d]`, `.`, `[\s\S]`, concatenation, alternation,
`X?` on a single literal, greedy `.*`, and named groups `(?P<n>[cls]+)`.
Matching is leftmost-first over start positions; quantifiers are greedy
(longest first); alternation is left-biased — exactly Python's backtracking
order for these patterns. -/

inductive CharCls where
  | word       -- \w  (ASCII approximation: [A-Za-z0-9_])
  | space      -- \s
  | wordSpace  -- [\w\s]
  | wordDigit  -- [\w\d] (equal to \w)
  | dot        -- .  (anything but newline)
  | anychar    -- [\s\S]
deriving DecidableEq, Repr

def clsMatch : CharCls → Char → Bool
  | .word, c => c.isAlphanum || c = '_'
  | .space, c => pyIsWs c
  | .wordSpace, c => c.isAlphanum || c = '_' || pyIsWs c
  | .wordDigit, c => c.isAlphanum || c = '_'
  | .dot, c => c ≠ '\n'
  | .anychar, _ => true

inductive RE where
  | eps
  | lit (c : Char)                        -- a literal character (IGNORECASE)
  | cls (cc : CharCls)
  | seq (a b : RE)
  | alt (a b : RE)
  | opt (a : RE)                          -- a?
  | star (cc : CharCls)                   -- cc*  (greedy)
  | group (name : String) (cc : CharCls)  -- (?P<name>cc+)  (greedy)
deriving Repr

abbrev Caps := List (String × String)

/-- Try continuation `k` after dropping `i` characters, for each `i` in the
given (descending) list — realizes greedy backtracking for `cc*`. -/
def tryDrops (s : List Char) (caps : Caps)
    (k : List Char → Caps → Option (Caps × List Char)) :
    List Nat → Option (Caps × List Char)
  | [] => none
  | i :: is => (k (s.drop i) caps).orElse (fun _ => tryDrops s caps k is)

/-- Same, recording the consumed prefix as the named group `n`. -/
def tryDropsCap (n : String) (s : List Char) (caps : Caps)
    (k : List Char → Caps → Option (Caps × List Char)) :
    List Nat → Option (Caps × List Char)
  | [] => none
  | i :: is =>
      ((k (s.drop i) (caps ++ [(n, String.mk (s.take i))]))).orElse
        (fun _ => tryDropsCap n s caps k is)

/-- `[hi, hi-1, ..., lo]`. -/
def descRange (hi lo : Nat) : List Nat := (List.range' lo (hi + 1 - lo)).reverse

def matchRE : RE → List Char → Caps →
    (List Char → Caps → Option (Caps × List Char)) → Option (Caps × List Char)
  | .eps, s, caps, k => k s caps
  | .lit c, s, caps, k =>
      match s with
      | [] => none
      | c' :: rest => if c'.toLower = c.toLower then k rest caps else none
  | .cls cc, s, caps, k =>
      match s with
      | [] => none
      | c' :: rest => if clsMatch cc c' then k rest caps else none
  | .seq a b, s, caps, k => matchRE a s caps (fun s' caps' => matchRE b s' caps' k)
  | .alt a b, s, caps, k => (matchRE a s caps k).orElse (fun _ => matchRE b s caps k)
  | .opt a, s, caps, k => (matchRE a s caps k).orElse (fun _ => k s caps)
  | .star cc, s, caps, k =>
      tryDrops s caps k (descRange ((s.takeWhile (clsMatch cc)).length) 0)
  | .group n cc, s, caps, k =>
      let run := (s.takeWhile (clsMatch cc)).length
      if run = 0 then none else tryDropsCap n s caps k (descRange run 1)

/-- `re.search`: try each start position left to right; returns the named
groups and the overall matched text (`group(0)`). -/
def searchFrom (r : RE) : List Char → Option (Caps × String)
  | [] =>
      match matchRE r [] [] (fun rest caps => some (caps, rest)) with
      | some (caps, _) => some (caps, "")
      | none => none
  | c :: t =>
      match matchRE r (c :: t) [] (fun rest caps => some (caps, rest)) with
      | some (caps, rest) =>
          some (caps, String.mk ((c :: t).take ((c :: t).length - rest.length)))
      | none => searchFrom r t

def reSearch (r : RE) (s : String) : Option (Caps × String) := searchFrom r s.data

/-- `m.groupdict().get(n, "")`. -/
def capGet (caps : Caps) (n : String) : String :=
  match caps with
  | [] => ""
  | (n', v) :: t => if n' = n then v else capGet t n

/-- Literal string (each character matched case-insensitively). -/
def rs (s : String) : RE := s.data.foldr (fun c r => RE.seq (RE.lit c) r) RE.eps

def rcat (l : List RE) : RE := l.foldr RE.seq RE.eps

def ralts : List String → RE
  | [] => RE.eps
  | [w] => rs w
  | w :: t => RE.alt (rs w) (ralts t)

/-! ## Intent extractor (`agents/intent_extractor/agent.py`) -/

def twitterPatterns : List RE :=
  [ rcat [rs "what is twitter saying about ", RE.group "location" .wordSpace],
    rcat [rs "twitter", RE.star .dot, rs "about ", RE.group "location" .wordSpace],
    rcat [rs "tweet", RE.opt (RE.lit 's'), RE.lit ' ', ralts ["about", "in", "for"],
          RE.lit ' ', RE.group "location" .wordSpace],
    rcat [RE.group "location" .wordSpace, rs " twitter feed"],
    rcat [RE.group "location" .wordSpace, rs " tweets"] ]

def redditPatterns : List RE :=
  [ rcat [rs "what is reddit saying about ", RE.group "topic" .wordSpace],
    rcat [rs "reddit", RE.star .dot, rs "about ", RE.group "topic" .wordSpace],
    rcat [RE.group "topic" .wordSpace, rs " reddit feed"],
    rcat [RE.group "topic" .wordSpace, rs " reddit"] ]

def newsPatterns : List RE :=
  [ rcat [rs "news ", ralts ["in", "about", "for"], RE.lit ' ', RE.group "city" .wordSpace],
    rcat [RE.group "city" .wordSpace, rs " news"] ]

def firestoreReportsPatterns : List RE :=
  [ rcat [rs "report", RE.opt (RE.lit 's'), RE.lit ' ', ralts ["in", "about", "for"],
          RE.lit ' ', RE.group "location" .wordSpace, RE.lit ' ',
          ralts ["on", "about"], RE.lit ' ', RE.group "topic" .wordSpace],
    rcat [RE.group "location" .wordSpace, rs " report", RE.opt (RE.lit 's'), RE.lit ' ',
          ralts ["on", "about"], RE.lit ' ', RE.group "topic" .wordSpace] ]

def firestoreSimilarPatterns : List RE :=
  [ rcat [rs "similar queries for user ", RE.group "user_id" .wordDigit, RE.lit ' ',
          ralts ["about", "for"], RE.lit ' ', RE.group "query" .wordSpace] ]

def googleSearchPatterns : List RE :=
  [ rcat [rs "google search for ", RE.group "query" .wordSpace],
    rcat [rs "search google for ", RE.group "query" .wordSpace],
    rcat [rs "search for ", RE.group "query" .wordSpace, rs " on google"] ]

def mapsPatterns : List RE :=
  [ rcat [rs "route from ", RE.group "current_location" .wordSpace, rs " to ",
          RE.group "destination" .wordSpace],
    rcat [rs "best route ", ralts ["from", "between"], RE.lit ' ',
          RE.group "current_location" .wordSpace, RE.lit ' ', ralts ["to", "and"],
          RE.lit ' ', RE.group "destination" .wordSpace] ]

/-- One regex family of the cascade: for each pattern in order, search; on a
match, `mk` validates the stripped groups — a `none` from `mk` (an empty
group after stripping) falls through to the next pattern, exactly like the
source's `for` loops. -/
def tryPatterns (pats : List RE) (msg : String) (mk : Caps → Option JVal) : Option JVal :=
  match pats with
  | [] => none
  | p :: rest =>
      match reSearch p msg with
      | some (caps, _) =>
          match mk caps with
          | some v => some v
          | none => tryPatterns rest msg mk
      | none => tryPatterns rest msg mk

def mkIntent (intent : String) (entities : List (String × JVal)) : JVal :=
  jobj [("intent", jstr intent), ("entities", jobj entities)]

/-- The regex pre-processing cascade of `extract_intent`, in source order. -/
def runCascade (msg : String) : Option JVal :=
  (tryPatterns twitterPatterns msg (fun caps =>
      let location := pyStrip (capGet caps "location")
      if location ≠ "" then
        some (mkIntent "get_twitter_posts"
          [("location", jstr location), ("topic", jstr "general")])
      else none)).orElse (fun _ =>
  (tryPatterns redditPatterns msg (fun caps =>
      let topic := pyStrip (capGet caps "topic")
      if topic ≠ "" then
        some (mkIntent "get_reddit_posts"
          [("subreddit", jstr (pyRemoveSpaces topic)), ("topic", jstr topic)])
      else none)).orElse (fun _ =>
  (tryPatterns newsPatterns msg (fun caps =>
      let city := pyStrip (capGet caps "city")
      if city ≠ "" then
        some (mkIntent "get_city_news" [("city", jstr city), ("location", jstr city)])
      else none)).orElse (fun _ =>
  (tryPatterns firestoreReportsPatterns msg (fun caps =>
      let location := pyStrip (capGet caps "location")
      let topic := pyStrip (capGet caps "topic")
      if location ≠ "" ∧ topic ≠ "" then
        some (mkIntent "get_firestore_reports"
          [("location", jstr location), ("topic", jstr topic)])
      else none)).orElse (fun _ =>
  (tryPatterns firestoreSimilarPatterns msg (fun caps =>
      let userId := pyStrip (capGet caps "user_id")
      let queryVal := pyStrip (capGet caps "query")
      if userId ≠ "" ∧ queryVal ≠ "" then
        some (mkIntent "get_similar_queries"
          [("user_id", jstr userId), ("query", jstr queryVal)])
      else none)).orElse (fun _ =>
  (tryPatterns googleSearchPatterns msg (fun caps =>
      let queryVal := pyStrip (capGet caps "query")
      if queryVal ≠ "" then
        some (mkIntent "google_search" [("query", jstr queryVal)])
      else none)).orElse (fun _ =>
  tryPatterns mapsPatterns msg (fun caps =>
      let cl := pyStrip (capGet caps "current_location")
      let dest := pyStrip (capGet caps "destination")
      if cl ≠ "" ∧ dest ≠ "" then
        some (mkIntent "get_best_route"
          [("current_location", jstr cl), ("destination", jstr dest)])
      else none)))))))

/-! ## `json.loads`

A recursive-descent parser for the JSON grammar accepted by Python's
`json.loads` with default settings: objects, arrays, strings with the
standard escapes, numbers (parsed exactly, as rationals), `true`, `false`,
`null`, and the non-standard `NaN` / `Infinity` / `-Infinity` tokens.
Strict mode: raw control characters in strings are rejected, as are invalid
escapes, leading zeros and trailing input.  Duplicate object keys follow
CPython dict semantics (last value wins, first position kept). -/

def jsonWsChar (c : Char) : Bool := c = ' ' || c = '\t' || c = '\n' || c = '\r'

def skipWs (s : List Char) : List Char := s.dropWhile jsonWsChar

def hexVal (c : Char) : Option Nat :=
  if '0' ≤ c ∧ c ≤ '9' then some (c.toNat - 48)
  else if 'a' ≤ c ∧ c ≤ 'f' then some (c.toNat - 87)
  else if 'A' ≤ c ∧ c ≤ 'F' then some (c.toNat - 55)
  else none

/-- Parse the remainder of a JSON string (the opening quote already
consumed), handling escapes. -/
def parseJStrAux : List Char → List Char → Option (String × List Char)
  | _, [] => none
  | acc, '"' :: rest => some (String.mk acc.reverse, rest)
  | acc, '\\' :: e :: rest =>
      if e = '"' then parseJStrAux ('"' :: acc) rest
      else if e = '\\' then parseJStrAux ('\\' :: acc) rest
      else if e = '/' then parseJStrAux ('/' :: acc) rest
      else if e = 'b' then parseJStrAux ('\x08' :: acc) rest
      else if e = 'f' then parseJStrAux ('\x0c' :: acc) rest
      else if e = 'n' then parseJStrAux ('\n' :: acc) rest
      else if e = 'r' then parseJStrAux ('\r' :: acc) rest
      else if e = 't' then parseJStrAux ('\t' :: acc) rest
      else if e = 'u' then
        match rest with
        | h1 :: h2 :: h3 :: h4 :: rest' =>
            match hexVal h1, hexVal h2, hexVal h3, hexVal h4 with
            | some a, some b, some c, some d =>
                parseJStrAux (Char.ofNat (((a * 16 + b) * 16 + c) * 16 + d) :: acc) rest'
            | _, _, _, _ => none
        | _ => none
      else none
  | acc, c :: rest => if c.toNat < 32 then none else parseJStrAux (c :: acc) rest

def digitsToNat (ds : List Char) : Nat :=
  ds.foldl (fun n c => n * 10 + (c.toNat - 48)) 0

/-- JSON number: `-? int frac? exp?` with `int = 0 | [1-9][0-9]*`; the exact
rational value is computed. -/
def parseJNum (s : List Char) : Option (ℚ × List Char) :=
  let (neg, s1) := match s with
    | '-' :: t => (true, t)
    | _ => (false, s)
  let ip := s1.takeWhile Char.isDigit
  let s2 := s1.dropWhile Char.isDigit
  if ip.isEmpty then none
  else if ip.length > 1 ∧ ip.head? = some '0' then none
  else
    let fracStep : Option (List Char × List Char) :=
      match s2 with
      | '.' :: t =>
          let ds := t.takeWhile Char.isDigit
          if ds.isEmpty then none else some (ds, t.dropWhile Char.isDigit)
      | _ => some ([], s2)
    match fracStep with
    | none => none
    | some (fr, s3) =>
        let expStep : Option (Int × List Char) :=
          match s3 with
          | c :: t =>
              if c = 'e' ∨ c = 'E' then
                let (sgn, t1) : Int × List Char := match t with
                  | '+' :: u => (1, u)
                  | '-' :: u => (-1, u)
                  | _ => (1, t)
                let ds := t1.takeWhile Char.isDigit
                if ds.isEmpty then none
                else some (sgn * (digitsToNat ds : Int), t1.dropWhile Char.isDigit)
              else some (0, c :: t)
          | [] => some (0, [])
        match expStep with
        | none => none
        | some (ex, s4) =>
            let mant : ℚ := (digitsToNat ip : ℚ) + (digitsToNat fr : ℚ) / ((10 : ℚ) ^ fr.length)
            let scaled : ℚ :=
              if ex ≥ 0 then mant * (10 : ℚ) ^ ex.toNat else mant / (10 : ℚ) ^ (-ex).toNat
            some ((if neg then -scaled else scaled), s4)

def stripPre (pre : List Char) : List Char → Option (List Char)
  | s =>
    match pre, s with
    | [], rest => some rest
    | p :: ps, c :: cs => if p = c then stripPre ps cs else none
    | _ :: _, [] => none

mutual

def parseVal : Nat → List Char → Option (JVal × List Char)
  | 0, _ => none
  | Nat.succ fuel, s =>
      match skipWs s with
      | [] => none
      | c :: rest =>
          if c = '"' then
            (parseJStrAux [] rest).map (fun p => (jstr p.1, p.2))
          else if c = '\x7b' then
            match skipWs rest with
            | '\x7d' :: r => some (jobj [], r)
            | r => parseObjMembers fuel r []
          else if c = '[' then
            match skipWs rest with
            | ']' :: r => some (jarr [], r)
            | r => parseArrItems fuel r []
          else
            match stripPre "true".data (c :: rest) with
            | some r => some (jbool true, r)
            | none =>
            match stripPre "false".data (c :: rest) with
            | some r => some (jbool false, r)
            | none =>
            match stripPre "null".data (c :: rest) with
            | some r => some (jnull, r)
            | none =>
            match stripPre "NaN".data (c :: rest) with
            | some r => some (jspecial "NaN", r)
            | none =>
            match stripPre "Infinity".data (c :: rest) with
            | some r => some (jspecial "Infinity", r)
            | none =>
            match stripPre "-Infinity".data (c :: rest) with
            | some r => some (jspecial "-Infinity", r)
            | none => (parseJNum (c :: rest)).map (fun p => (jnum p.1, p.2))

def parseObjMembers : Nat → List Char → List (String × JVal) →
    Option (JVal × List Char)
  | 0, _, _ => none
  | Nat.succ fuel, s, acc =>
      match skipWs s with
      | '"' :: rest =>
          match parseJStrAux [] rest with
          | none => none
          | some (k, r1) =>
              match skipWs r1 with
              | ':' :: r2 =>
                  match parseVal fuel r2 with
                  | none => none
                  | some (v, r3) =>
                      let acc' := dictSet acc k v
                      match skipWs r3 with
                      | ',' :: r4 => parseObjMembers fuel r4 acc'
                      | '\x7d' :: r4 => some (jobj acc', r4)
                      | _ => none
              | _ => none
      | _ => none

def parseArrItems : Nat → List Char → List JVal → Option (JVal × List Char)
  | 0, _, _ => none
  | Nat.succ fuel, s, acc =>
      match parseVal fuel s with
      | none => none
      | some (v, r1) =>
          match skipWs r1 with
          | ',' :: r2 => parseArrItems fuel r2 (acc ++ [v])
          | ']' :: r2 => some (jarr (acc ++ [v]), r2)
          | _ => none

end

/-- `json.loads(s)`: parse one value and require only whitespace after it. -/
def jsonLoads (s : String) : Option JVal :=
  match parseVal (s.length + 2) s.data with
  | some (v, rest) => if (skipWs rest).isEmpty then some v else none
  | none => none

/-! ## `extract_intent` (LLM fallback part) -/

/-- The fixed prompt template of `extract_intent` (the f-string with the
user message embedded). -/
def intentPrompt (message : String) : String :=
  "\nYou are an intent extractor for a smart city assistant.\nGiven a user\x27s message, extract:\n- `intent`: One word, e.g., \x27traffic\x27, \x27event\x27, \x27power\x27, \x27weather\x27, etc.\n- `entities`: Dict with keys like \x27location\x27, \x27time\x27, or \x27topic\x27 if mentioned.\n\nRespond ONLY in JSON like:\n\x7b\n  \"intent\": \"event\",\n  \"entities\": \x7b\n    \"location\": \"HSR Layout\",\n    \"topic\": \"flash mob\"\n  \x7d\n\x7d\n\nUser: \"" ++ message ++ "\"\n"

/-- The brace-matching regex `\x7b[\s\S]+\x7d` used to cut a JSON block out
of the LLM response. -/
def jsonBlockRE : RE := rcat [RE.lit '\x7b', RE.cls .anychar, RE.star .anychar, RE.lit '\x7d']

def unknownIntent : JVal := jobj [("intent", jstr "unknown"), ("entities", jobj [])]

/-- `extract_intent(message)` from `agents/intent_extractor/agent.py`.

The Gemini call is the external collaborator `llm` (argument: the prompt;
`Except.error` models `generate_content` raising).  The regex cascade runs
first; if no pattern wins, the LLM is consulted, a `{...}` block is cut out
of its stripped response and fed to `json.loads`; the parsed object is
returned verbatim.  Any failure falls back to
`{intent: "unknown", entities: {}}`.  The function itself never raises. -/
def llmIntentBranch (resp : Except Unit String) : JVal :=
  match resp with
  | .error _ => unknownIntent
  | .ok raw =>
      match reSearch jsonBlockRE (pyStrip raw) with
      | some (_, matched) =>
          match jsonLoads matched with
          | some v => v
          | none => unknownIntent
      | none => unknownIntent

def extract_intent (llm : String → Except Unit String) (message : String) : JVal :=
  match runCascade message with
  | some d => d
  | none => llmIntentBranch (llm (intentPrompt message))

/-! ## `shared/utils/mood.py`

TextBlob is the external sentiment collaborator: `SentEnv.polarity` and
`SentEnv.nounPhrases` stand for `TextBlob(content).sentiment.polarity` and
`TextBlob(content).noun_phrases`.  `TextBlob(x)` raises on a non-string
argument, which the embedding models by raising `typeError` when a truthy
non-string content value reaches it.  Python floats are modelled as exact
rationals. -/

structure SentEnv where
  polarity : String → ℚ
  nounPhrases : String → List String

/-- Python iteration (`for t in v`): list elements, characters of a string,
keys of a dict; `TypeError` otherwise. -/
def pyIterate : JVal → Except PyExc (List JVal)
  | jarr l => .ok l
  | jstr s => .ok (s.data.map (fun c => jstr (String.mk [c])))
  | jobj d => .ok (d.map (fun p => jstr p.1))
  | _ => .error .typeError

/-- `t.get("text") or t.get("title") or t.get("description") or ""` for a
dict item, `str(t)` otherwise. -/
def contentOf (t : JVal) : JVal :=
  match t with
  | jobj d =>
      pyOr (dictGetD d "text" jnull)
        (pyOr (dictGetD d "title" jnull)
          (pyOr (dictGetD d "description" jnull) (jstr "")))
  | _ => jstr (pyToStr t)

/-- First-occurrence deduplication.  Python's `list(set(...))` has an
unspecified (hash-based) order; the embedding fixes first-occurrence order.
No theorem depends on the order, only on emptiness. -/
def dedupFirstAux (seen : List String) : List String → List String
  | [] => []
  | x :: t =>
      if seen.contains x then dedupFirstAux seen t
      else x :: dedupFirstAux (x :: seen) t

def dedupFirst (l : List String) : List String := dedupFirstAux [] l

/-- One iteration of the `analyze_sentiment` loop: skip falsy items, extract
the content, score truthy string content (`TextBlob` raises on a truthy
non-string). -/
def sentStep (env : SentEnv) (acc : List ℚ × List String) (t : JVal) :
    Except PyExc (List ℚ × List String) :=
  if ¬ pyTruthy t then pure acc
  else
    let content := contentOf t
    if pyTruthy content then
      match content with
      | jstr s => pure (acc.1 ++ [env.polarity s], acc.2 ++ env.nounPhrases s)
      | _ => Except.error PyExc.typeError
    else pure acc

/-- `analyze_sentiment(texts)`: average polarity and up to five keywords. -/
def analyze_sentiment (env : SentEnv) (texts : JVal) : Except PyExc (ℚ × List String) :=
  if ¬ pyTruthy texts then .ok (0, [])
  else do
    let items ← pyIterate texts
    let step ← items.foldlM (sentStep env) ([], [])
    let scores := step.1
    let avg : ℚ := if scores.isEmpty then 0 else scores.sum / (scores.length : ℚ)
    return (avg, (dedupFirst step.2).take 5)

def EVENT_KEYWORDS : List String :=
  ["accident", "protest", "festival", "fire", "parade", "closure", "celebration",
   "concert", "emergency", "strike", "jam", "block", "delay", "crowd", "police",
   "roadwork"]

def isWordChar (c : Char) : Bool := c.isAlphanum || c = '_'

def wordBoundaryOk : Option Char → Bool
  | none => true
  | some c => !isWordChar c

/-- `re.search(rf"\b{kw}\b", s)` for a keyword made of word characters. -/
def containsWordAux (kw : List Char) : Option Char → List Char → Bool
  | _, [] => false
  | prev, c :: t =>
      (wordBoundaryOk prev && kw.isPrefixOf (c :: t) &&
        wordBoundaryOk ((c :: t).drop kw.length).head?) ||
      containsWordAux kw (some c) t

def containsWord (kw s : String) : Bool := containsWordAux kw.data none s.data

/-- A detected event before merging: keyword, count, contributing sources. -/
structure Ev where
  ty : String
  count : Nat
  sources : List String
deriving Repr, DecidableEq

/-- `event_counts[keyword] = event_counts.get(keyword, 0) + 1` on an
insertion-ordered dict. -/
def bumpCount (l : List (String × Nat)) (k : String) : List (String × Nat) :=
  match l with
  | [] => [(k, 1)]
  | (k', n) :: t => if k' = k then (k', n + 1) :: t else (k', n) :: bumpCount t k

/-- `detect_events(texts, source)`. -/
def detect_events (texts : JVal) (source : String) : Except PyExc (List Ev) := do
  let items ← pyIterate texts
  let counts ← items.foldlM (fun (acc : List (String × Nat)) t =>
    if ¬ pyTruthy t then pure acc
    else
      match contentOf t with
      | jstr s =>
          let cl := pyLower s
          pure (EVENT_KEYWORDS.foldl
            (fun a kw => if containsWord kw cl then bumpCount a kw else a) acc)
      | _ => Except.error PyExc.attributeError) []
  return counts.map (fun p => Ev.mk p.1 p.2 [source])

/-- The event-merging loop of `aggregate_mood_from_unified_data`: events of
the same type are merged, summing counts and concatenating sources. -/
def mergeEvents (evs : List Ev) : List Ev :=
  evs.foldl (fun acc e =>
    if acc.any (fun e' => e'.ty = e.ty) then
      acc.map (fun e' =>
        if e'.ty = e.ty then Ev.mk e'.ty (e'.count + e.count) (e'.sources ++ e.sources)
        else e')
    else acc ++ [e]) []

/-- `maps_score`: `-0.5` when the maps dict has a `duration_in_traffic`
differing from `duration`, else `0.0`. -/
def mapsScoreOf (maps_data : JVal) : ℚ :=
  match maps_data with
  | jobj d =>
      if !d.isEmpty && dictHas d "duration_in_traffic" &&
          !(JVal.beq (dictGetD d "duration_in_traffic" jnull) (dictGetD d "duration" jnull))
      then -(1/2) else 0
  | _ => 0

/-- Python `round(q, 2)` idealized over exact rationals: decimal half-even
rounding to two places. -/
def roundHalfEven (q : ℚ) : ℤ :=
  let f := ⌊q⌋
  let r := q - f
  if r < 1/2 then f
  else if r > 1/2 then f + 1
  else if f % 2 = 0 then f else f + 1

def pyRound2 (q : ℚ) : ℚ := (roundHalfEven (q * 100) : ℚ) / 100

/-- The `if/elif` ladder choosing the mood label. -/
def moodLabelOf (mood_score maps_score : ℚ) : String :=
  if mood_score > 3/10 then "happy"
  else if mood_score < -(3/10) then "tense"
  else if maps_score < 0 then "busy"
  else "neutral"

/-- `aggregate_mood_from_unified_data(unified_data)`. -/
def aggregate_mood_from_unified_data (env : SentEnv) (unified : List (String × JVal)) :
    Except PyExc JVal := do
  let twitter_data := dictGetD unified "twitter" (jarr [])
  let reddit_data := dictGetD unified "reddit" (jarr [])
  let news_data := dictGetD unified "news" (jarr [])
  let google_data := dictGetD unified "google_search" (jarr [])
  let maps_data := dictGetD unified "maps" (jobj [])
  let tw ← analyze_sentiment env twitter_data
  let rd ← analyze_sentiment env reddit_data
  let nw ← analyze_sentiment env news_data
  let gg ← analyze_sentiment env google_data
  let maps_score := mapsScoreOf maps_data
  let maps_keywords : List String := if maps_score < 0 then ["traffic"] else []
  let evTw ← detect_events twitter_data "twitter"
  let evRd ← detect_events reddit_data "reddit"
  let evNw ← detect_events news_data "news"
  let evGg ← detect_events google_data "google_search"
  let merged := mergeEvents (evTw ++ evRd ++ evNw ++ evGg)
  let mergedList := merged.map (fun e =>
    jobj [("type", jstr e.ty), ("count", jnum (e.count : ℚ)),
          ("sources", jarr ((dedupFirst e.sources).map jstr))])
  let source_scores : List ℚ := [tw.1, rd.1, nw.1, gg.1, maps_score]
  let mood_score := source_scores.sum / (source_scores.length : ℚ)
  let mood_label := moodLabelOf mood_score maps_score
  return jobj
    [ ("mood_label", jstr mood_label),
      ("mood_score", jnum (pyRound2 mood_score)),
      ("events", jarr mergedList),
      ("source_breakdown", jobj
        [ ("twitter", jobj [("score", jnum (pyRound2 tw.1)),
            ("top_keywords", jarr (tw.2.map jstr))]),
          ("reddit", jobj [("score", jnum (pyRound2 rd.1)),
            ("top_keywords", jarr (rd.2.map jstr))]),
          ("news", jobj [("score", jnum (pyRound2 nw.1)),
            ("top_keywords", jarr (nw.2.map jstr))]),
          ("google_search", jobj [("score", jnum (pyRound2 gg.1)),
            ("top_keywords", jarr (gg.2.map jstr))]),
          ("maps", jobj [("score", jnum (pyRound2 maps_score)),
            ("top_keywords", jarr (maps_keywords.map jstr))]) ]) ]

/-- The (unrounded) mood score: mean of the five per-source scores — the
value the label ladder branches on. -/
def moodMean (env : SentEnv) (unified : List (String × JVal)) : Except PyExc ℚ := do
  let tw ← analyze_sentiment env (dictGetD unified "twitter" (jarr []))
  let rd ← analyze_sentiment env (dictGetD unified "reddit" (jarr []))
  let nw ← analyze_sentiment env (dictGetD unified "news" (jarr []))
  let gg ← analyze_sentiment env (dictGetD unified "google_search" (jarr []))
  let maps_score := mapsScoreOf (dictGetD unified "maps" (jobj []))
  let source_scores : List ℚ := [tw.1, rd.1, nw.1, gg.1, maps_score]
  return source_scores.sum / (source_scores.length : ℚ)

/-! ## `agents/agglomerator.py` -/

/-- `aggregate_api_results(...)`: normalize per-source payloads into the
unified dict.  Note the `firestore` line of the source is commented out. -/
def aggregate_api_results
    (reddit_data twitter_data news_data maps_data : Option (List (String × JVal)))
    (rag_data : Option (List String))
    (google_search_data : Option (List JVal)) : List (String × JVal) :=
  [ ("reddit", match reddit_data with
      | some d => if !d.isEmpty && dictHas d "posts" then dictGetD d "posts" jnull else jarr []
      | none => jarr []),
    ("twitter", match twitter_data with
      | some d => if !d.isEmpty && dictHas d "tweets" then dictGetD d "tweets" jnull else jarr []
      | none => jarr []),
    ("news", match news_data with
      | some d => if !d.isEmpty && dictHas d "articles" then dictGetD d "articles" jnull else jarr []
      | none => jarr []),
    ("maps", match maps_data with
      | some d => if !d.isEmpty then jobj d else jobj []
      | none => jobj []),
    ("rag", match rag_data with
      | some l => if !l.isEmpty then jarr (l.map jstr) else jarr []
      | none => jarr []),
    ("google_search", match google_search_data with
      | some l => if !l.isEmpty then jarr l else jarr []
      | none => jarr []) ]

/-! ## Orchestrator (`apps/orchestrator/main.py`)

External collaborators and effects:
* `Env` carries the outward collaborator functions.  Tool wrappers whose own
  bodies catch every exception and return a value (`tools/firestore.py`
  accessors, `tools/news.py`, `tools/maps.py`, `tools/google_search.py`,
  `agents/gemini_fallback_agent.py` runner results) appear as total functions
  returning their value; the Gemini calls can additionally raise
  (`Except Unit`), which the orchestrator does not always catch.
* The monad `M` threads the list of outward effects (`Act`) and a
  possible uncaught Python exception.  State written before an exception is
  preserved (effects already performed remain performed). -/

inductive Act where
  | readCache (location : JVal) (dataType : String)
  | clearCache (location : JVal) (dataType : String)
  | storeCache (location : JVal) (dataType : String) (payload : JVal)
  | twitterCall (location topic : JVal) (limit : Nat)
  | redditFresh (subreddit : JVal)
  | newsFetch (city : JVal) (limit : Nat)
  | routeCall (origin dest mode : JVal)
  | placesCall (location : JVal) (maxResults : Nat)
  | googleCall (q : JVal) (numResults : Nat)
  | reportsCall (location topic : JVal)
  | similarCall (userId q : JVal)
  | historyRead (userId : JVal)
  | agentRouterLLM (q : String)
  | geminiFallbackCall (q userId : String)
  | historyWrite (userId q : String) (response : JVal) (location : JVal)
deriving Repr

def Act.isClearCache : Act → Bool
  | .clearCache _ _ => true
  | _ => false

def Act.isPlacesCall : Act → Bool
  | .placesCall _ _ => true
  | _ => false

def PyM (α : Type) : Type := List Act → Except PyExc α × List Act

instance : Monad PyM where
  pure a := fun s => (.ok a, s)
  bind x f := fun s =>
    match x s with
    | (.ok a, s') => f a s'
    | (.error e, s') => (.error e, s')

def tellA (a : Act) : PyM Unit := fun s => (.ok (), s ++ [a])

def raiseM {α : Type} (e : PyExc) : PyM α := fun s => (.error e, s)

/-- `try/except Exception`: the handler sees the effects already performed. -/
def tryCatchM {α : Type} (x : PyM α) (h : PyExc → PyM α) : PyM α := fun s =>
  match x s with
  | (.ok a, s') => (.ok a, s')
  | (.error e, s') => h e s'

def liftE {α : Type} : Except PyExc α → PyM α
  | .ok a => pure a
  | .error e => raiseM e

/-- `v[k]` on a value: dict lookup (`KeyError` if missing), `TypeError` on
non-subscriptable values. -/
def pyIndex (v : JVal) (k : String) : Except PyExc JVal :=
  match v with
  | jobj d =>
      match dictGet? d k with
      | some x => .ok x
      | none => .error (.keyError k)
  | _ => .error .typeError

/-- Placeholder rendering of an exception inside an f-string (`f"...{e}"`);
no theorem depends on the text. -/
def pyExcMsg : PyExc → String
  | .typeError => "TypeError"
  | .keyError k => "KeyError: " ++ k
  | .attributeError => "AttributeError"
  | .externalError => "ExternalError"

/-- One tweet as processed by `fetch_twitter_posts` (author username looked
up from the `includes` expansion, text, creation time). -/
structure Tweet where
  author : Option String
  text : String
  createdAt : String
deriving Repr

/-- Outcome of `client.search_recent_tweets`: data, a `TweepyException`, or
another exception (the string is `str(e)`). -/
inductive TweepyOutcome where
  | ok (tweets : List Tweet)
  | tweepyErr (msg : String)
  | otherErr (msg : String)
deriving Repr

structure Env where
  geminiIntent : String → Except Unit String
  geminiFallback : String → String → Except Unit String
  twitterMissingCreds : List String
  tweepySearch : String → TweepyOutcome
  fetchCityNews : JVal → Nat → JVal
  getBestRoute : JVal → JVal → JVal → JVal
  getMustVisitPlaces : JVal → Nat → JVal
  googleSearch : JVal → Nat → List JVal
  getUnifiedData : JVal → String → List JVal
  firestoreReports : JVal → JVal → Nat → String
  similarQueries : JVal → JVal → Nat → String
  userQueryHistory : JVal → Nat → List JVal
  nowIso : String

/-- `fetch_twitter_posts(location, topic, limit)` from `tools/twitter.py`:
credential check, Tweepy search, formatting; every exception is caught and
rendered as an error string — the function never raises. -/
def fetch_twitter_posts (env : Env) (location topic : JVal) (_limit : Nat) : String :=
  if !env.twitterMissingCreds.isEmpty then
    "Twitter API credentials missing: " ++ String.intercalate ", " env.twitterMissingCreds
  else
    match env.tweepySearch (pyToStr location ++ " " ++ pyToStr topic ++ " -is:retweet lang:en") with
    | .ok tweets =>
        let processed := tweets.map (fun t =>
          "@" ++ t.author.getD "N/A" ++ ": " ++ t.text ++ " (at " ++ t.createdAt ++ ")")
        if processed.isEmpty then
          "No recent tweets found for " ++ pyToStr location ++ " about " ++ pyToStr topic ++ "."
        else
          "Recent tweets: " ++ String.intercalate " | " processed
    | .tweepyErr e =>
        if containsSub "429" e || containsSub "Too Many Requests" e then
          "Twitter rate limit reached. Please try again in a few minutes."
        else
          "Tweepy API Error: " ++ e
    | .otherErr e => "An unexpected error occurred: " ++ e

/-- The step-5 condition of `chat_router`: the reply is replaced by a plain
Gemini answer exactly when it is blank, starts (lower-cased) with
"error fetching" or "no posts found", or contains "rate limit" or
"not yet implemented". -/
def needsGeminiFallback (reply : String) : Bool :=
  (pyStrip reply).isEmpty ||
  pyStartsWith (pyLower reply) "error fetching" ||
  pyStartsWith (pyLower reply) "no posts found" ||
  containsSub "rate limit" (pyLower reply) ||
  containsSub "not yet implemented" (pyLower reply)

def ERROR_INDICATORS : List String :=
  ["no must-visit places found", "no places found", "could not find",
   "error", "exception", "not found"]

/-- Python `len(v)`. -/
def pyLen : JVal → Except PyExc Nat
  | jarr l => .ok l.length
  | jstr s => .ok s.length
  | jobj d => .ok d.length
  | _ => .error .typeError

/-- `all(place.strip() == "" for place in places)` — short-circuits at the
first non-blank element; a non-string element reached raises
`AttributeError`. -/
def allBlankM : List JVal → Except PyExc Bool
  | [] => .ok true
  | jstr s :: t => if pyStrip s == "" then allBlankM t else .ok false
  | _ :: _ => .error .attributeError

/-- The tail of `dispatch_tool` from the `get_city_news` branch on.  It is a
separate definition because Python's `elif` chain continues here both when
the `social_media` guard fails outright and when its `source`-entity check
fails. -/
def dispatchTail (env : Env) (intent : JVal) (entities : List (String × JVal))
    (query : String) (location topic : JVal) : PyM (Bool × JVal) := do
  if JVal.beq intent (jstr "get_city_news") && (dictHas entities "city" || pyTruthy location) then
    let city := dictGetD entities "city" location
    tryCatchM (do
      tellA (.readCache city "news")
      let cached := env.getUnifiedData city "news"
      if !cached.isEmpty then
        match cached with
        | c0 :: _ => do
          let newsData ← (match c0 with
            | jobj d => pure (dictGetD d "data" (jobj []))
            | _ => raiseM .attributeError)
          let hasArticles ← liftE (pyIn "articles" newsData)
          if hasArticles then do
            let articles ← liftE (pyIndex newsData "articles")
            if pyTruthy articles then do
              let joined ← liftE (pyJoin "\n" articles)
              return (true, jstr ("Latest news for " ++ pyToStr city ++ ":\n" ++ joined))
        | [] => pure ()
      -- no (usable) cached data: fetch from the API and store the result
      tellA (.newsFetch city 5)
      let reply := env.fetchCityNews city 5
      tryCatchM (do
        let hasNl ← liftE (pyIn "\n" reply)
        let articlesList ← (if hasNl then
            match reply with
            | jstr s => pure (jarr (((pySplit s '\n').drop 1).map jstr))
            | _ => raiseM .attributeError
          else pure (jarr [reply]))
        tellA (.storeCache city "news" (jobj
          [("articles", articlesList), ("timestamp", jstr env.nowIso),
           ("source", jstr "news_api")]))
        pure ())
        (fun _ => pure ())
      return (true, reply))
      (fun _ => do
        tellA (.newsFetch city 5)
        return (true, env.fetchCityNews city 5))
  else if JVal.beq intent (jstr "get_firestore_reports") && pyTruthy location && pyTruthy topic then do
    -- fetch_firestore_reports (tools/firestore.py) catches internally and
    -- returns a string, so the surrounding try/except of the source is dead
    tellA (.reportsCall location topic)
    return (true, jstr (env.firestoreReports location topic 5))
  else if JVal.beq intent (jstr "get_similar_queries") && dictHas entities "user_id" && dictHas entities "query" then do
    let userId := dictGetD entities "user_id" jnull
    let q := dictGetD entities "query" jnull
    tellA (.similarCall userId q)
    return (true, jstr (env.similarQueries userId q 5))
  else if JVal.beq intent (jstr "google_search") && dictHas entities "query" then
    let q := dictGetD entities "query" jnull
    tryCatchM (do
      tellA (.googleCall q 5)
      let results := env.googleSearch q 5
      if !results.isEmpty then do
        let lines ← liftE (results.mapM (fun r =>
          match r with
          | jobj d => Except.ok ("- " ++ pyToStr (dictGetD d "title" (jstr "No title")) ++
              ": " ++ pyToStr (dictGetD d "snippet" (jstr "No snippet")))
          | _ => Except.error PyExc.attributeError))
        return (true, jstr ("Google search results for \x27" ++ pyToStr q ++ "\x27:\n" ++
          String.intercalate "\n" lines))
      else
        return (true, jstr ("No results found for \x27" ++ pyToStr q ++ "\x27")))
      (fun e => return (false, jstr ("Error performing Google search: " ++ pyExcMsg e)))
  else if JVal.beq intent (jstr "get_best_route") && dictHas entities "current_location" && dictHas entities "destination" then do
    let cl := dictGetD entities "current_location" jnull
    let dest := dictGetD entities "destination" jnull
    let mode := dictGetD entities "mode" (jstr "driving")
    -- get_best_route (tools/maps.py) catches internally; returns a dict
    tellA (.routeCall cl dest mode)
    return (true, env.getBestRoute cl dest mode)
  else if (JVal.beq intent (jstr "get_must_visit_places") || JVal.beq intent (jstr "poi")) && pyTruthy location then
    tryCatchM (do
      tellA (.readCache location "maps")
      let cached := env.getUnifiedData location "maps"
      if !cached.isEmpty then
        match cached with
        | c0 :: _ => do
          let placesData ← (match c0 with
            | jobj d => pure (dictGetD d "data" (jobj []))
            | _ => raiseM .attributeError)
          let hasPlaces ← liftE (pyIn "places" placesData)
          if hasPlaces then do
            let placesV ← liftE (pyIndex placesData "places")
            if pyTruthy placesV then do
              -- `if places and len(places) > 0 and not all(...)`
              let lenP ← liftE (pyLen placesV)
              if lenP > 0 then do
                let items ← liftE (pyIterate placesV)
                let ab ← liftE (allBlankM items)
                if !ab then do
                  let joinedSp ← liftE (pyJoin " " placesV)
                  let placesText := pyLower joinedSp
                  let hasError := ERROR_INDICATORS.any (fun ind => containsSub ind placesText)
                  if !hasError then do
                    let locStr ← (match location with
                      | jstr l => pure l
                      | _ => raiseM .typeError)
                    let joinedNl ← liftE (pyJoin "\n" placesV)
                    return (true, jstr ("Must visit places in " ++ locStr ++ ":\n" ++ joinedNl))
                  else
                    -- cached places contain an error message: purge them
                    -- (clear_empty_cached_data catches internally)
                    tellA (.clearCache location "maps")
                else
                  -- cached places are all blank: purge them
                  tellA (.clearCache location "maps")
        | [] => pure ()
      -- no useful cached data: fetch fresh places and store them
      tellA (.placesCall location 10)
      let reply := env.getMustVisitPlaces location 10
      tryCatchM (do
        let hasNl ← liftE (pyIn "\n" reply)
        let placesList ← (if hasNl then
            match reply with
            | jstr s => pure (jarr (((pySplit s '\n').drop 1).map jstr))
            | _ => raiseM .attributeError
          else pure (jarr [reply]))
        tellA (.storeCache location "maps" (jobj
          [("places", placesList), ("timestamp", jstr env.nowIso),
           ("source", jstr "google_maps_api")]))
        pure ())
        (fun _ => pure ())
      return (true, reply))
      (fun _ => do
        tellA (.placesCall location 10)
        return (true, env.getMustVisitPlaces location 10))
  else if JVal.beq intent (jstr "history") ||
      (containsSub "query" (pyLower query) &&
        (containsSub "first" (pyLower query) || containsSub "previous" (pyLower query) ||
         containsSub "last" (pyLower query))) then
    tryCatchM (do
      let userId := dictGetD entities "user_id" (jstr "test")
      tellA (.historyRead userId)
      let history := env.userQueryHistory userId 10
      match history with
      | [] =>
          return (true, jstr "You haven\x27t made any queries yet. This would be your first one!")
      | h0 :: rest => do
          let ql := pyLower query
          if containsSub "first" ql then do
            let fq := (h0 :: rest).getLast?.getD h0
            let qv ← liftE (pyIndex fq "query")
            let ts ← liftE (pyIndex fq "timestamp")
            return (true, jstr ("Your first query was: \x27" ++ pyToStr qv ++ "\x27 on " ++ pyToStr ts))
          else if containsSub "last" ql then do
            let qv ← liftE (pyIndex h0 "query")
            let ts ← liftE (pyIndex h0 "timestamp")
            return (true, jstr ("Your last query was: \x27" ++ pyToStr qv ++ "\x27 on " ++ pyToStr ts))
          else do
            let recent := (h0 :: rest).take 3
            let lines ← liftE (recent.enum.mapM (fun p => do
              let qv ← pyIndex p.2 "query"
              let ts ← pyIndex p.2 "timestamp"
              Except.ok (toString (p.1 + 1) ++ ". \x27" ++ pyToStr qv ++ "\x27 on " ++
                pyToStr ts ++ "\n")))
            return (true, jstr ("Your recent queries:\n" ++ String.join lines)))
      (fun _ => return (true, jstr "I\x27m having trouble accessing your query history right now."))
  else
    return (false, jstr "")

/-- `dispatch_tool(intent, entities, query)`. -/
def dispatch_tool (env : Env) (intent : JVal) (entities : List (String × JVal))
    (query : String) : PyM (Bool × JVal) := do
  let location := dictGetD entities "location" (jstr "")
  let topic := dictGetD entities "topic" (jstr "")
  if JVal.beq intent (jstr "get_twitter_posts") && pyTruthy location && pyTruthy topic then do
    tellA (.twitterCall location topic 10)
    return (true, jstr (fetch_twitter_posts env location topic 10))
  else if JVal.beq intent (jstr "get_reddit_posts") && dictHas entities "subreddit" then
    return (true, jstr "REDDIT_ASYNC_CALL")
  else if JVal.beq intent (jstr "social_media") then
    match dictGetD entities "source" (jstr "") with
    | jstr s =>
        if pyLower s == "reddit" && dictHas entities "topic" then
          return (true, jstr "REDDIT_ASYNC_CALL")
        else
          dispatchTail env intent entities query location topic
    | _ => raiseM .attributeError
  else
    dispatchTail env intent entities query location topic

/-- `agent_router(tool_name, args, fallback="gemini")` as `chat_router` calls
it: `tool_name` is always `None`, so no named-tool branch matches and the
`else` runs the Gemini fallback agent on `args["query"]` (with its default
user id "testuser").  If that raises, the `except` runs it once more behind
a "[Fallback: Gemini] " prefix; a second failure propagates. -/
def agent_router_none (env : Env) (queryMsg : String) : PyM String := do
  tellA (.agentRouterLLM queryMsg)
  match env.geminiFallback queryMsg "testuser" with
  | .ok s => pure s
  | .error _ => do
      tellA (.agentRouterLLM queryMsg)
      match env.geminiFallback queryMsg "testuser" with
      | .ok s => pure ("[Fallback: Gemini] " ++ s)
      | .error _ => raiseM .externalError

/-- The `/chat` response model.  (Pydantic field validation is outside the
modelled core; the record holds the values handed to `BotResponse(...)`.) -/
structure BotResponse where
  intent : JVal
  entities : JVal
  reply : JVal
deriving Repr

/-- Steps 3–7 of `chat_router` (everything after `dispatch_tool` returned):
the async-Reddit handling, the `agent_router` fallback, the step-5 Gemini
fallback, the history write and the final `BotResponse`. -/
def chatAfterDispatch (env : Env) (user_id message : String) (intent : JVal)
    (entities : List (String × JVal)) (success : Bool) (reply : JVal) :
    PyM (Option BotResponse) := do
  -- 3. async Reddit handling
  if JVal.beq reply (jstr "REDDIT_ASYNC_CALL") then do
    -- the default argument is evaluated eagerly, before the lookup
    let topicDefault ← (match dictGetD entities "topic" (jstr "") with
      | jstr s => pure (jstr (pyRemoveSpaces s))
      | _ => raiseM .attributeError)
    let subreddit := dictGetD entities "subreddit" topicDefault
    let hit ← tryCatchM (do
        tellA (.readCache subreddit "reddit")
        let cached := env.getUnifiedData subreddit "reddit"
        if !cached.isEmpty then
          match cached with
          | c0 :: _ => do
            let redditData ← (match c0 with
              | jobj d => pure (dictGetD d "data" (jobj []))
              | _ => raiseM .attributeError)
            let hasPosts ← liftE (pyIn "posts" redditData)
            if hasPosts then do
              let posts ← liftE (pyIndex redditData "posts")
              if pyTruthy posts then do
                let _joined ← liftE (pyJoin "\n" posts)
                -- reply and success are assigned here, and then the handler
                -- executes a bare `return` — see below
                pure true
              else pure false
            else pure false
          | [] => pure false
        else pure false)
      (fun _ => pure false)
    if hit then
      -- the source's bare `return` inside the cached-data branch:
      -- the endpoint returns None instead of a BotResponse
      return none
    -- cache miss: the source does `await fetch_reddit_posts(...)`, but
    -- fetch_reddit_posts (tools/reddit.py) is a plain synchronous function
    -- returning a dict: awaiting its result raises TypeError, uncaught here
    tellA (.redditFresh subreddit)
    raiseM .typeError
  else pure ()
  -- 4. agent_router fallback when no direct tool matched
  let reply2 ← (if !success then do
      let r ← agent_router_none env message
      pure (jstr r)
    else pure reply)
  -- 5. general Gemini fallback for empty/error replies
  let reply3 ← (match reply2 with
    | jstr s =>
        if needsGeminiFallback s then do
          tellA (.geminiFallbackCall message user_id)
          match env.geminiFallback message user_id with
          | .ok t => pure (jstr t)
          | .error _ => raiseM .externalError
        else pure (jstr s)
    | _ => raiseM .attributeError)
  -- 6. persist query history (both the helper and the call site catch all
  -- exceptions, so this never fails the request)
  tellA (.historyWrite user_id message
    (jobj [("intent", intent), ("entities", jobj entities), ("reply", reply3)])
    (dictGetD entities "location" jnull))
  -- 7. return BotResponse(intent=intent, entities=entities, reply=reply)
  return some (BotResponse.mk intent (jobj entities) reply3)

/-- `chat_router(query)` — the `/chat` endpoint.  Returns `some response`
for a normal return, `none` for the bare `return` on the cached-Reddit path,
and an `Except.error` when an exception escapes the handler. -/
def chat_router (env : Env) (user_id message : String) : PyM (Option BotResponse) := do
  -- 1. extract intent/entities
  let intent_data := extract_intent env.geminiIntent message
  let intent ← liftE (pyIndex intent_data "intent")
  let entitiesV ← liftE (pyIndex intent_data "entities")
  -- 2. entities["user_id"] = query.user_id
  let entities ← (match entitiesV with
    | jobj d => pure (dictSet d "user_id" (jstr user_id))
    | _ => raiseM .typeError)
  let (success, reply) ← dispatch_tool env intent entities message
  chatAfterDispatch env user_id message intent entities success reply

/-! ## Concrete environments for witnesses and counterexamples -/

/-- A benign collaborator environment: all credentials present, all stores
empty, the LLMs answer. -/
def stubEnv : Env where
  geminiIntent := fun _ => .error ()
  geminiFallback := fun _ _ => .ok "LLM ANSWER"
  twitterMissingCreds := []
  tweepySearch := fun _ => .ok []
  fetchCityNews := fun _ _ => jobj [("articles", jarr [])]
  getBestRoute := fun _ _ _ => jobj []
  getMustVisitPlaces := fun _ _ =>
    jobj [("success", jbool true), ("places", jarr [jstr "P1"])]
  googleSearch := fun _ _ => []
  getUnifiedData := fun _ _ => []
  firestoreReports := fun _ _ _ => "Reports for t in l: No reports found in database."
  similarQueries := fun _ _ _ => "Similar queries to x"
  userQueryHistory := fun _ _ => []
  nowIso := "2026-01-01T00:00:00"

/-- Environment with a fresh cached Reddit document for any location. -/
def envCachedReddit : Env :=
  { stubEnv with getUnifiedData := fun _ ty =>
      if ty == "reddit" then [jobj [("data", jobj [("posts", jarr [jstr "p1"])])]]
      else [] }

/-- Environment whose Tweepy client raises a non-rate-limit
`TweepyException` with message "boom". -/
def envTweepyBoom : Env :=
  { stubEnv with tweepySearch := fun _ => .tweepyErr "boom" }

/-- Environment whose Tweepy client raises a rate-limit `TweepyException`
whose message carries the 429 marker. -/
def envTweepyRate : Env :=
  { stubEnv with tweepySearch := fun _ => .tweepyErr "429 rate" }

/-- Environment with a cached maps document whose `places` list is empty. -/
def envEmptyPlaces : Env :=
  { stubEnv with getUnifiedData := fun _ ty =>
      if ty == "maps" then [jobj [("data", jobj [("places", jarr [])])]]
      else [] }

/-- Environment with a cached maps document whose `places` text carries the
error phrase "no places found". -/
def envErrorPlaces : Env :=
  { stubEnv with getUnifiedData := fun _ ty =>
      if ty == "maps" then
        [jobj [("data", jobj [("places", jarr [jstr "No places found near Pune"])])]]
      else [] }

/-- An LLM that answers with a JSON object that is not a ParsedQuery. -/
def llmArbitraryJson : String → Except Unit String :=
  fun _ => .ok "\x7b\"a\": \"b\"\x7d"

/-- An LLM collaborator that always raises. -/
def llmRaises : String → Except Unit String := fun _ => .error ()

/-- A neutral sentiment collaborator: polarity 0, no keywords. -/
def stubSentEnv : SentEnv where
  polarity := fun _ => 0
  nounPhrases := fun _ => []

/-- A sentiment collaborator that scores everything fully positive. -/
def happySentEnv : SentEnv where
  polarity := fun _ => 1
  nounPhrases := fun _ => []

/-- A UnifiedResult whose only signal is a traffic delay in the maps dict. -/
def busyMapsDict : JVal :=
  jobj [("duration_in_traffic", jstr "20 mins"), ("duration", jstr "15 mins")]

def busyUnified : List (String × JVal) := [("maps", busyMapsDict)]

/-- The mood record the aggregator produces for `busyUnified` under a
neutral sentiment collaborator. -/
def busyMoodResult : JVal :=
  jobj [("mood_label", jstr "busy"), ("mood_score", jnum (-(1/10))),
        ("events", jarr []),
        ("source_breakdown", jobj
          [("twitter", jobj [("score", jnum 0), ("top_keywords", jarr [])]),
           ("reddit", jobj [("score", jnum 0), ("top_keywords", jarr [])]),
           ("news", jobj [("score", jnum 0), ("top_keywords", jarr [])]),
           ("google_search", jobj [("score", jnum 0), ("top_keywords", jarr [])]),
           ("maps", jobj [("score", jnum (-(1/2))),
                          ("top_keywords", jarr [jstr "traffic"])])])]

/-! ## Claim theorems -/

/-! Small evaluation lemmas for the mood aggregator (rational arithmetic is
not kernel-reducible, so these are proved with `norm_num`). -/

theorem analyzeSentiment_empty (env : SentEnv) :
    analyze_sentiment env (jarr []) = Except.ok (0, []) := rfl

theorem detectEvents_empty (src : String) :
    detect_events (jarr []) src = Except.ok [] := rfl

theorem mapsScoreOf_emptyObj : mapsScoreOf (jobj []) = 0 := rfl

theorem roundHalfEven_zero : roundHalfEven 0 = 0 := by
  norm_num [roundHalfEven]

theorem pyRound2_zero : pyRound2 0 = 0 := by
  norm_num [pyRound2, roundHalfEven]

theorem moodLabelOf_zero : moodLabelOf 0 0 = "neutral" := by
  norm_num [moodLabelOf]

/-- C1 (code bug): the spec claims `handle(user_id, message)` returns a
well-formed `{intent, entities, reply}` record on every control path,
naming the cached-Reddit path.  The code violates this: on a Reddit-intent
message with a fresh cached Reddit document, `chat_router` executes a bare
`return`, so the endpoint returns `None` — contradicting its own declared
`response_model=BotResponse`.  This theorem evaluates the embedded handler
at the failing input. -/
theorem C1_cached_reddit_returns_none :
    (chat_router envCachedReddit "u1" "python reddit" []).1 = Except.ok none := rfl

set_option maxHeartbeats 2000000 in
/-- C2 counterexample: with the Tweepy client raising a non-rate-limit
exception, the dispatcher returns the raw tool error string
"Tweepy API Error: boom" to the user — it matches none of the step-5
replacement conditions, so it is not replaced by the LLM answer even though
the LLM collaborator is available. -/
theorem C2_counterexample :
    (chat_router envTweepyBoom "u1" "tweets about Delhi" []).1 =
      Except.ok (some (BotResponse.mk (jstr "get_twitter_posts")
        (jobj [("location", jstr "Delhi"), ("topic", jstr "general"),
               ("user_id", jstr "u1")])
        (jstr "Tweepy API Error: boom"))) ∧
    fetch_twitter_posts envTweepyBoom (jstr "Delhi") (jstr "general") 10 =
      "Tweepy API Error: boom" ∧
    envTweepyBoom.geminiFallback "tweets about Delhi" "u1" = Except.ok "LLM ANSWER" :=
  ⟨rfl, rfl, rfl⟩

/-- C3 counterexample: the Result Aggregator's output has no
`firestore`/`stored_reports` key at all (the source line is commented out),
and an errored maps payload is passed through rather than defaulted. -/
theorem C3_counterexample :
    dictGet? (aggregate_api_results none none none none none none) "firestore" = none ∧
    dictGet? (aggregate_api_results none none none none none none) "stored_reports" = none ∧
    dictGet? (aggregate_api_results none none none (some [("error", jstr "boom")]) none none)
        "maps" = some (jobj [("error", jstr "boom")]) :=
  ⟨rfl, rfl, rfl⟩

/-- C3 amended: for every combination of arguments the aggregator returns a
record with exactly the keys `reddit, twitter, news, maps, rag,
google_search` (there is no firestore/stored_reports key); with zero
arguments every key is its documented empty default; and the three
list-shaped sources default to the empty list on an `{error: ...}` payload
(the maps key keeps such a payload, see the counterexample). -/
theorem C3_amended_keys_and_defaults
    (rd tw nw mp : Option (List (String × JVal))) (rg : Option (List String))
    (gs : Option (List JVal)) :
    ((aggregate_api_results rd tw nw mp rg gs).map Prod.fst =
      ["reddit", "twitter", "news", "maps", "rag", "google_search"]) ∧
    (aggregate_api_results none none none none none none =
      [("reddit", jarr []), ("twitter", jarr []), ("news", jarr []),
       ("maps", jobj []), ("rag", jarr []), ("google_search", jarr [])]) ∧
    (∀ e, aggregate_api_results (some [("error", e)]) (some [("error", e)])
        (some [("error", e)]) none none none =
      [("reddit", jarr []), ("twitter", jarr []), ("news", jarr []),
       ("maps", jobj []), ("rag", jarr []), ("google_search", jarr [])]) :=
  ⟨rfl, rfl, fun _ => rfl⟩

/-- C4: the mood aggregator applied to the all-empty UnifiedResult (the
zero-argument aggregator output) returns exactly the neutral record:
label "neutral", score 0.0, no events, and an all-zero, keyword-free
source breakdown — for every sentiment collaborator. -/
theorem C4_neutral_default (env : SentEnv) :
    aggregate_mood_from_unified_data env
        (aggregate_api_results none none none none none none) =
      Except.ok (jobj
        [("mood_label", jstr "neutral"), ("mood_score", jnum 0), ("events", jarr []),
         ("source_breakdown", jobj
           [("twitter", jobj [("score", jnum 0), ("top_keywords", jarr [])]),
            ("reddit", jobj [("score", jnum 0), ("top_keywords", jarr [])]),
            ("news", jobj [("score", jnum 0), ("top_keywords", jarr [])]),
            ("google_search", jobj [("score", jnum 0), ("top_keywords", jarr [])]),
            ("maps", jobj [("score", jnum 0), ("top_keywords", jarr [])])])]) := by
  have hU : aggregate_api_results none none none none none none =
      [("reddit", jarr []), ("twitter", jarr []), ("news", jarr []),
       ("maps", jobj []), ("rag", jarr []), ("google_search", jarr [])] := rfl
  rw [hU]
  have htw : dictGetD [("reddit", jarr []), ("twitter", jarr []), ("news", jarr []),
       ("maps", jobj []), ("rag", jarr []), ("google_search", jarr [])] "twitter" (jarr []) = jarr [] := rfl
  have hrd : dictGetD [("reddit", jarr []), ("twitter", jarr []), ("news", jarr []),
       ("maps", jobj []), ("rag", jarr []), ("google_search", jarr [])] "reddit" (jarr []) = jarr [] := rfl
  have hnw : dictGetD [("reddit", jarr []), ("twitter", jarr []), ("news", jarr []),
       ("maps", jobj []), ("rag", jarr []), ("google_search", jarr [])] "news" (jarr []) = jarr [] := rfl
  have hgg : dictGetD [("reddit", jarr []), ("twitter", jarr []), ("news", jarr []),
       ("maps", jobj []), ("rag", jarr []), ("google_search", jarr [])] "google_search" (jarr []) = jarr [] := rfl
  have hmp : dictGetD [("reddit", jarr []), ("twitter", jarr []), ("news", jarr []),
       ("maps", jobj []), ("rag", jarr []), ("google_search", jarr [])] "maps" (jobj []) = jobj [] := rfl
  unfold aggregate_mood_from_unified_data
  rw [htw, hrd, hnw, hgg, hmp]
  simp only [analyzeSentiment_empty, detectEvents_empty, mapsScoreOf_emptyObj]
  simp only [Bind.bind, Except.bind, pure, Except.pure]
  simp only [mergeEvents, List.foldl, List.map, List.length, List.sum_cons, List.sum_nil,
    add_zero, zero_add, Nat.cast_ofNat]
  norm_num [moodLabelOf, pyRound2_zero]

/-- C6: the routing message "route from Delhi to Mumbai" is answered by the
regex cascade with `get_best_route` and the two trimmed capture groups, and
the result is the same for every LLM collaborator — the cascade
short-circuits before the LLM branch. -/
theorem C6_route_regex_no_llm (llm : String → Except Unit String) :
    extract_intent llm "route from Delhi to Mumbai" =
      jobj [("intent", jstr "get_best_route"),
            ("entities", jobj [("current_location", jstr "Delhi"),
                               ("destination", jstr "Mumbai")])] := rfl

/-- C7 counterexample: when no regex matches and the LLM answers with an
arbitrary JSON object, `extract_intent` returns that object verbatim — the
result has no `intent` key at all, so it is not a ParsedQuery. -/
theorem C7_counterexample :
    extract_intent llmArbitraryJson "hello" = jobj [("a", jstr "b")] ∧
    pyIndex (extract_intent llmArbitraryJson "hello") "intent" =
      Except.error (PyExc.keyError "intent") :=
  ⟨rfl, rfl⟩

/-- C7 amended: `extract_intent` never raises (it is a total function of the
collaborator outcome), and whenever no regex pattern of the cascade matches
and no brace-delimited block of the LLM output parses as JSON — including
the LLM raising — it returns exactly `{intent: "unknown", entities: {}}`.
When a JSON object does parse it is returned verbatim and need not be a
ParsedQuery (see the counterexample). -/
theorem C7_unknown_fallback (llm : String → Except Unit String) (message : String)
    (hcascade : runCascade message = none)
    (hnojson : ∀ raw caps matched, llm (intentPrompt message) = Except.ok raw →
        reSearch jsonBlockRE (pyStrip raw) = some (caps, matched) →
        jsonLoads matched = none) :
    extract_intent llm message = unknownIntent := by
  unfold extract_intent
  rw [hcascade]
  show llmIntentBranch (llm (intentPrompt message)) = unknownIntent
  cases hllm : llm (intentPrompt message) with
  | error e => rfl
  | ok raw =>
      cases hsearch : reSearch jsonBlockRE (pyStrip raw) with
      | none => simp only [llmIntentBranch, hsearch]
      | some p =>
          obtain ⟨caps, matched⟩ := p
          simp only [llmIntentBranch, hsearch]
          rw [hnojson raw caps matched hllm hsearch]

/-- C7 witness: the message "hello" matches no regex and a raising LLM
yields the unknown fallback. -/
theorem C7_unknown_fallback_witness :
    runCascade "hello" = none ∧ extract_intent llmRaises "hello" = unknownIntent :=
  ⟨rfl, C7_unknown_fallback llmRaises "hello" rfl
    (fun _ _ _ h _ => Except.noConfusion h)⟩

/-- C8 counterexample: a cached maps entry whose payload has an empty
`places` list is not reused (a fresh fetch is performed and returned), but
it is not invalidated either — no `clear_empty_cached_data` call happens,
contradicting the claim that an empty payload is removed. -/
theorem C8_counterexample :
    ((dispatch_tool envEmptyPlaces (jstr "get_must_visit_places")
        [("location", jstr "Pune")] "q" []).1 =
      Except.ok (true, envEmptyPlaces.getMustVisitPlaces (jstr "Pune") 10)) ∧
    ((dispatch_tool envEmptyPlaces (jstr "get_must_visit_places")
        [("location", jstr "Pune")] "q" []).2.any Act.isClearCache = false) ∧
    ((dispatch_tool envEmptyPlaces (jstr "get_must_visit_places")
        [("location", jstr "Pune")] "q" []).2.any Act.isPlacesCall = true) :=
  ⟨rfl, rfl, rfl⟩

/-! Helper lemmas about the effect monad and list evaluation, shared by the
claim theorems below. -/

theorem PyM.bind_eq {α β : Type} (x : PyM α) (f : α → PyM β) (s : List Act) :
    (x >>= f) s = match x s with
      | (.ok a, s') => f a s'
      | (.error e, s') => (.error e, s') := rfl

theorem PyM.pure_eq {α : Type} (a : α) (s : List Act) :
    (pure a : PyM α) s = (.ok a, s) := rfl

theorem allBlankM_map (l : List String) :
    allBlankM (l.map jstr) = Except.ok (l.all (fun p => pyStrip p == "")) := by
  induction l with
  | nil => rfl
  | cons x xs ih =>
      simp only [List.map_cons, allBlankM, List.all_cons]
      by_cases h : pyStrip x == ""
      · simp [h, ih]
      · simp [h]

theorem pyJoin_map (sep : String) (l : List String) :
    pyJoin sep (jarr (l.map jstr)) = Except.ok (String.intercalate sep l) := by
  have hmap : (l.map jstr).mapM (fun v => match v with
      | jstr s => Except.ok s
      | _ => Except.error PyExc.typeError) =
      (Except.ok l : Except PyExc (List String)) := by
    induction l with
    | nil => rfl
    | cons x xs ih => simp only [List.map_cons, List.mapM_cons, ih]; rfl
  simp only [pyJoin, hmap]
  rfl

theorem map_jstr_isEmpty (l : List String) (h : l ≠ []) :
    (l.map jstr).isEmpty = false := by
  cases l with
  | nil => exact absurd rfl h
  | cons x xs => rfl

theorem moodLabelOf_cases (m ms : ℚ) :
    (m > 3/10 → moodLabelOf m ms = "happy") ∧
    (m < -(3/10) → moodLabelOf m ms = "tense") ∧
    (-(3/10) ≤ m → m ≤ 3/10 →
      ((moodLabelOf m ms = "busy" ↔ ms < 0) ∧
       (0 ≤ ms → moodLabelOf m ms = "neutral"))) ∧
    (moodLabelOf m ms = "happy" ∨ moodLabelOf m ms = "tense" ∨
     moodLabelOf m ms = "busy" ∨ moodLabelOf m ms = "neutral") := by
  unfold moodLabelOf
  split_ifs with h1 h2 h3
  · exact ⟨fun _ => rfl, fun h => absurd h (by linarith),
      fun ha hb => absurd h1 (by linarith), Or.inl rfl⟩
  · exact ⟨fun h => absurd h h1, fun _ => rfl,
      fun ha hb => absurd h2 (by linarith), Or.inr (Or.inl rfl)⟩
  · exact ⟨fun h => absurd h h1, fun h => absurd h h2,
      fun _ _ => ⟨⟨fun _ => h3, fun _ => rfl⟩, fun h0 => absurd h3 (by linarith)⟩,
      Or.inr (Or.inr (Or.inl rfl))⟩
  · exact ⟨fun h => absurd h h1, fun h => absurd h h2,
      fun _ _ => ⟨⟨fun h => absurd h (by decide), fun h => absurd h h3⟩, fun _ => rfl⟩,
      Or.inr (Or.inr (Or.inr rfl))⟩

theorem pyIndex_head (k : String) (v : JVal) (rest : List (String × JVal)) :
    pyIndex (jobj ((k, v) :: rest)) k = Except.ok v := by
  simp [pyIndex, dictGet?]

/-- C5: for every sentiment collaborator and every unified dict, writing `m`
for the aggregator's mood score (the mean of the five per-source scores, the
value the label ladder branches on) and `ms` for the transit signal: a score
above 0.3 forces the label "happy"; below -0.3 forces "tense"; otherwise the
label is "busy" exactly when the transit signal is negative, else "neutral";
and the emitted label is always one of these four — the cases are mutually
exclusive and cover all scores. -/
theorem C5_label_cases (env : SentEnv) (unified : List (String × JVal)) (r : JVal) (m : ℚ)
    (hr : aggregate_mood_from_unified_data env unified = Except.ok r)
    (hm : moodMean env unified = Except.ok m) :
    (m > 3/10 → pyIndex r "mood_label" = Except.ok (jstr "happy")) ∧
    (m < -(3/10) → pyIndex r "mood_label" = Except.ok (jstr "tense")) ∧
    (-(3/10) ≤ m → m ≤ 3/10 →
      ((pyIndex r "mood_label" = Except.ok (jstr "busy") ↔
          mapsScoreOf (dictGetD unified "maps" (jobj [])) < 0) ∧
       (0 ≤ mapsScoreOf (dictGetD unified "maps" (jobj [])) →
          pyIndex r "mood_label" = Except.ok (jstr "neutral")))) ∧
    (pyIndex r "mood_label" = Except.ok (jstr "happy") ∨
     pyIndex r "mood_label" = Except.ok (jstr "tense") ∨
     pyIndex r "mood_label" = Except.ok (jstr "busy") ∨
     pyIndex r "mood_label" = Except.ok (jstr "neutral")) := by
  unfold aggregate_mood_from_unified_data at hr
  unfold moodMean at hm
  cases h1 : analyze_sentiment env (dictGetD unified "twitter" (jarr [])) with
  | error e => simp only [h1, Bind.bind, Except.bind] at hr; exact Except.noConfusion hr
  | ok tw =>
  simp only [h1, Bind.bind, Except.bind] at hr hm
  cases h2 : analyze_sentiment env (dictGetD unified "reddit" (jarr [])) with
  | error e => simp only [h2] at hr; exact Except.noConfusion hr
  | ok rd =>
  simp only [h2] at hr hm
  cases h3 : analyze_sentiment env (dictGetD unified "news" (jarr [])) with
  | error e => simp only [h3] at hr; exact Except.noConfusion hr
  | ok nw =>
  simp only [h3] at hr hm
  cases h4 : analyze_sentiment env (dictGetD unified "google_search" (jarr [])) with
  | error e => simp only [h4] at hr; exact Except.noConfusion hr
  | ok gg =>
  simp only [h4] at hr hm
  cases h5 : detect_events (dictGetD unified "twitter" (jarr [])) "twitter" with
  | error e => simp only [h5] at hr; exact Except.noConfusion hr
  | ok e1 =>
  simp only [h5] at hr
  cases h6 : detect_events (dictGetD unified "reddit" (jarr [])) "reddit" with
  | error e => simp only [h6] at hr; exact Except.noConfusion hr
  | ok e2 =>
  simp only [h6] at hr
  cases h7 : detect_events (dictGetD unified "news" (jarr [])) "news" with
  | error e => simp only [h7] at hr; exact Except.noConfusion hr
  | ok e3 =>
  simp only [h7] at hr
  cases h8 : detect_events (dictGetD unified "google_search" (jarr [])) "google_search" with
  | error e => simp only [h8] at hr; exact Except.noConfusion hr
  | ok e4 =>
  simp only [h8] at hr
  simp only [pure, Except.pure, Except.ok.injEq] at hr hm
  subst hm
  subst hr
  simp only [pyIndex_head, Except.ok.injEq, JVal.jstr.injEq]
  exact moodLabelOf_cases _ _

/-- C5 witness: a concrete UnifiedResult whose only signal is a maps traffic
delay has mean score -1/10 within [-0.3, 0.3] and a negative transit signal,
and the aggregator labels it "busy". -/
theorem C5_label_cases_witness :
    (-(3/10) ≤ (-(1/10) : ℚ)) ∧ ((-(1/10) : ℚ) ≤ 3/10) ∧
    mapsScoreOf (dictGetD busyUnified "maps" (jobj [])) < 0 ∧
    pyIndex busyMoodResult "mood_label" = Except.ok (jstr "busy") := by
  have hd1 : dictGetD busyUnified "twitter" (jarr []) = jarr [] := rfl
  have hd2 : dictGetD busyUnified "reddit" (jarr []) = jarr [] := rfl
  have hd3 : dictGetD busyUnified "news" (jarr []) = jarr [] := rfl
  have hd4 : dictGetD busyUnified "google_search" (jarr []) = jarr [] := rfl
  have hd5 : dictGetD busyUnified "maps" (jobj []) = busyMapsDict := rfl
  have hms0 : mapsScoreOf busyMapsDict = -(1/2) := rfl
  have hm : moodMean stubSentEnv busyUnified = Except.ok (-(1/10)) := by
    unfold moodMean
    rw [hd1, hd2, hd3, hd4, hd5]
    simp only [analyzeSentiment_empty, Bind.bind, Except.bind, hms0, pure, Except.pure,
      List.sum_cons, List.sum_nil, List.length, add_zero, zero_add, Except.ok.injEq]
    norm_num
  have hr : aggregate_mood_from_unified_data stubSentEnv busyUnified =
      Except.ok busyMoodResult := by
    unfold aggregate_mood_from_unified_data
    rw [hd1, hd2, hd3, hd4, hd5]
    simp only [analyzeSentiment_empty, detectEvents_empty, Bind.bind, Except.bind, hms0,
      pure, Except.pure, mergeEvents, List.foldl, List.map, List.length,
      List.sum_cons, List.sum_nil, add_zero, zero_add, Except.ok.injEq, busyMoodResult]
    norm_num [moodLabelOf, pyRound2, roundHalfEven]
  have hms : mapsScoreOf (dictGetD busyUnified "maps" (jobj [])) < 0 := by
    rw [hd5, hms0]; norm_num
  refine ⟨by norm_num, by norm_num, hms, ?_⟩
  exact ((C5_label_cases stubSentEnv busyUnified busyMoodResult (-(1/10)) hr hm).2.2.1
    (by norm_num) (by norm_num)).1.mpr hms

theorem sentStep_bounded (env : SentEnv)
    (hb : ∀ s, -1 ≤ env.polarity s ∧ env.polarity s ≤ 1)
    (acc : List ℚ × List String) (t : JVal) (res : List ℚ × List String)
    (h : sentStep env acc t = Except.ok res)
    (hacc : ∀ q ∈ acc.1, -1 ≤ q ∧ q ≤ 1) : ∀ q ∈ res.1, -1 ≤ q ∧ q ≤ 1 := by
  unfold sentStep at h
  by_cases h1 : pyTruthy t = true
  · rw [if_neg (by simp [h1])] at h
    by_cases h2 : pyTruthy (contentOf t) = true
    · rw [if_pos h2] at h
      cases hc : contentOf t with
      | jstr s =>
          rw [hc] at h
          simp only [pure, Except.pure, Except.ok.injEq] at h
          subst h
          intro q hq
          rcases List.mem_append.mp hq with hq1 | hq2
          · exact hacc q hq1
          · have := List.mem_singleton.mp hq2
            subst this
            exact hb s
      | jnum a => rw [hc] at h; simp at h
      | jspecial a => rw [hc] at h; simp at h
      | jbool a => rw [hc] at h; simp at h
      | jnull => rw [hc] at h; simp at h
      | jarr a => rw [hc] at h; simp at h
      | jobj a => rw [hc] at h; simp at h
    · rw [if_neg h2] at h
      simp only [pure, Except.pure, Except.ok.injEq] at h
      subst h; exact hacc
  · rw [if_pos (by simp [h1])] at h
    simp only [pure, Except.pure, Except.ok.injEq] at h
    subst h; exact hacc

theorem sentFold_bounded (env : SentEnv)
    (hb : ∀ s, -1 ≤ env.polarity s ∧ env.polarity s ≤ 1) :
    ∀ (items : List JVal) (acc res : List ℚ × List String),
      items.foldlM (sentStep env) acc = Except.ok res →
      (∀ q ∈ acc.1, -1 ≤ q ∧ q ≤ 1) → (∀ q ∈ res.1, -1 ≤ q ∧ q ≤ 1) := by
  intro items
  induction items with
  | nil =>
      intro acc res h hacc
      simp only [List.foldlM_nil, pure, Except.pure, Except.ok.injEq] at h
      subst h; exact hacc
  | cons t ts ih =>
      intro acc res h hacc
      rw [List.foldlM_cons] at h
      cases hstep : sentStep env acc t with
      | error e => rw [hstep] at h; simp [Bind.bind, Except.bind] at h
      | ok acc' =>
          rw [hstep] at h
          simp only [Bind.bind, Except.bind] at h
          exact ih acc' res h (sentStep_bounded env hb acc t acc' hstep hacc)

theorem mean_bounded (l : List ℚ) (h : ∀ q ∈ l, -1 ≤ q ∧ q ≤ 1) :
    -1 ≤ (if l.isEmpty then (0:ℚ) else l.sum / (l.length : ℚ)) ∧
    (if l.isEmpty then (0:ℚ) else l.sum / (l.length : ℚ)) ≤ 1 := by
  cases l with
  | nil => norm_num
  | cons x xs =>
      have hlen : (0:ℚ) < (((x :: xs).length : ℕ) : ℚ) := by
        have h0 : 0 < (x :: xs).length := by simp
        exact_mod_cast h0
      have hup : (x :: xs).sum ≤ (((x :: xs).length : ℕ) : ℚ) := by
        have := List.sum_le_card_nsmul (x :: xs) 1 (fun y hy => (h y hy).2)
        simpa using this
      have hlo : -((((x :: xs).length : ℕ)) : ℚ) ≤ (x :: xs).sum := by
        have := List.card_nsmul_le_sum (x :: xs) (-1) (fun y hy => (h y hy).1)
        simpa using this
      simp only [List.isEmpty_cons, Bool.false_eq_true, if_false]
      constructor
      · rw [le_div_iff₀ hlen]; linarith
      · rw [div_le_one hlen]; exact hup

/-- C9: if the external sentiment analyzer returns a per-item polarity in
[-1, 1], then for every item sequence the scorer's average polarity lies in
[-1, 1]; and on the empty sequence it returns exactly (0.0, []). -/
theorem C9_sentiment_bounds (env : SentEnv)
    (hb : ∀ s, -1 ≤ env.polarity s ∧ env.polarity s ≤ 1) :
    analyze_sentiment env (jarr []) = Except.ok (0, []) ∧
    (∀ (items : List JVal) (avg : ℚ) (kws : List String),
      analyze_sentiment env (jarr items) = Except.ok (avg, kws) →
      -1 ≤ avg ∧ avg ≤ 1) := by
  refine ⟨rfl, ?_⟩
  intro items avg kws h
  cases items with
  | nil =>
      rw [analyzeSentiment_empty] at h
      simp only [Except.ok.injEq, Prod.mk.injEq] at h
      rw [← h.1]; norm_num
  | cons t ts =>
      unfold analyze_sentiment at h
      rw [if_neg (by simp [pyTruthy])] at h
      simp only [pyIterate, Bind.bind, Except.bind] at h
      cases hfold : (t :: ts).foldlM (sentStep env) ([], []) with
      | error e => rw [hfold] at h; simp at h
      | ok step =>
          rw [hfold] at h
          simp only [pure, Except.pure, Except.ok.injEq, Prod.mk.injEq] at h
          have hbnd := sentFold_bounded env hb (t :: ts) ([], []) step hfold (by simp)
          have := mean_bounded step.1 hbnd
          rw [← h.1] at *
          exact ⟨this.1, this.2⟩

/-- C9 witness: the neutral analyzer satisfies the bound hypothesis; the
empty sequence gives exactly (0, []), and a one-item sequence has its
average within the bounds. -/
theorem C9_sentiment_bounds_witness :
    (∀ s, -1 ≤ stubSentEnv.polarity s ∧ stubSentEnv.polarity s ≤ 1) ∧
    analyze_sentiment stubSentEnv (jarr []) = Except.ok (0, []) ∧
    (-1 ≤ (0:ℚ) ∧ (0:ℚ) ≤ 1) := by
  have hb : ∀ s, -1 ≤ stubSentEnv.polarity s ∧ stubSentEnv.polarity s ≤ 1 := by
    intro s
    constructor <;> norm_num [stubSentEnv]
  have h0 : analyze_sentiment stubSentEnv (jarr [jstr "hello"]) = Except.ok (0, []) := by
    unfold analyze_sentiment
    rw [if_neg (by simp [pyTruthy])]
    simp only [pyIterate, Bind.bind, Except.bind, List.foldlM, sentStep, contentOf, pyToStr,
      pyTruthy, stubSentEnv, pure, Except.pure, dedupFirst, dedupFirstAux,
      show "hello".isEmpty = false from rfl]
    norm_num [dedupFirst, dedupFirstAux]
  exact ⟨hb, (C9_sentiment_bounds stubSentEnv hb).1,
    (C9_sentiment_bounds stubSentEnv hb).2 [jstr "hello"] 0 [] h0⟩

/-! Helper lemmas about the embedded Twitter tool, used by the C2 amended
theorem. -/

theorem fetchTw_err (env : Env) (e : String)
    (hcreds : env.twitterMissingCreds = [])
    (hsearch : env.tweepySearch "Delhi general -is:retweet lang:en" = TweepyOutcome.tweepyErr e)
    (h429 : containsSub "429" e = false)
    (htmr : containsSub "Too Many Requests" e = false) :
    fetch_twitter_posts env (jstr "Delhi") (jstr "general") 10 = "Tweepy API Error: " ++ e := by
  unfold fetch_twitter_posts
  rw [hcreds]
  rw [show (pyToStr (jstr "Delhi") ++ " " ++ pyToStr (jstr "general") ++ " -is:retweet lang:en") =
      "Delhi general -is:retweet lang:en" from rfl]
  rw [hsearch]
  simp only [List.isEmpty_nil, Bool.not_true, Bool.false_eq_true, if_false, h429, htmr,
    Bool.or_self, if_neg]

theorem fetchTw_rate (env : Env) (e : String)
    (hcreds : env.twitterMissingCreds = [])
    (hsearch : env.tweepySearch "Delhi general -is:retweet lang:en" = TweepyOutcome.tweepyErr e)
    (h429 : containsSub "429" e = true) :
    fetch_twitter_posts env (jstr "Delhi") (jstr "general") 10 =
      "Twitter rate limit reached. Please try again in a few minutes." := by
  unfold fetch_twitter_posts
  rw [hcreds]
  rw [show (pyToStr (jstr "Delhi") ++ " " ++ pyToStr (jstr "general") ++ " -is:retweet lang:en") =
      "Delhi general -is:retweet lang:en" from rfl]
  rw [hsearch]
  simp only [List.isEmpty_nil, Bool.not_true, Bool.false_eq_true, if_false, h429,
    Bool.true_or, if_true]

/-- C2 amended: the rate-limit marker branch does behave as the spec says —
when the Tweepy client raises with a 429 marker, the tool reply contains the
rate-limit phrase, the step-5 filter catches it, and the user receives the
LLM free-text answer instead.  But a non-rate-limit `TweepyException` is
formatted as "Tweepy API Error: <e>", which matches none of the replacement
conditions: for every environment in which that string is non-blank and free
of the filter markers, the raw tool error reaches the user verbatim (see
also the counterexample). -/
theorem C2_amended (env env2 : Env) (uid e e2 t : String)
    (hcreds : env.twitterMissingCreds = [])
    (hsearch : env.tweepySearch "Delhi general -is:retweet lang:en" = TweepyOutcome.tweepyErr e)
    (h429 : containsSub "429" e = false)
    (htmr : containsSub "Too Many Requests" e = false)
    (hnra : (("Tweepy API Error: " ++ e) == "REDDIT_ASYNC_CALL") = false)
    (hfb : needsGeminiFallback ("Tweepy API Error: " ++ e) = false)
    (hcreds2 : env2.twitterMissingCreds = [])
    (hsearch2 : env2.tweepySearch "Delhi general -is:retweet lang:en" = TweepyOutcome.tweepyErr e2)
    (h4292 : containsSub "429" e2 = true)
    (hok2 : env2.geminiFallback "tweets about Delhi" uid = Except.ok t) :
    chat_router env uid "tweets about Delhi" [] =
      (Except.ok (some (BotResponse.mk (jstr "get_twitter_posts")
          (jobj [("location", jstr "Delhi"), ("topic", jstr "general"), ("user_id", jstr uid)])
          (jstr ("Tweepy API Error: " ++ e)))),
       [Act.twitterCall (jstr "Delhi") (jstr "general") 10,
        Act.historyWrite uid "tweets about Delhi"
          (jobj [("intent", jstr "get_twitter_posts"),
                 ("entities", jobj [("location", jstr "Delhi"), ("topic", jstr "general"),
                                    ("user_id", jstr uid)]),
                 ("reply", jstr ("Tweepy API Error: " ++ e))]) (jstr "Delhi")]) ∧
    chat_router env2 uid "tweets about Delhi" [] =
      (Except.ok (some (BotResponse.mk (jstr "get_twitter_posts")
          (jobj [("location", jstr "Delhi"), ("topic", jstr "general"), ("user_id", jstr uid)])
          (jstr t))),
       [Act.twitterCall (jstr "Delhi") (jstr "general") 10,
        Act.geminiFallbackCall "tweets about Delhi" uid,
        Act.historyWrite uid "tweets about Delhi"
          (jobj [("intent", jstr "get_twitter_posts"),
                 ("entities", jobj [("location", jstr "Delhi"), ("topic", jstr "general"),
                                    ("user_id", jstr uid)]),
                 ("reply", jstr t)]) (jstr "Delhi")]) := by
  constructor
  · have step1 : chat_router env uid "tweets about Delhi" [] =
        chatAfterDispatch env uid "tweets about Delhi" (jstr "get_twitter_posts")
          [("location", jstr "Delhi"), ("topic", jstr "general"), ("user_id", jstr uid)] true
          (jstr (fetch_twitter_posts env (jstr "Delhi") (jstr "general") 10))
          [Act.twitterCall (jstr "Delhi") (jstr "general") 10] := rfl
    rw [step1, fetchTw_err env e hcreds hsearch h429 htmr]
    unfold chatAfterDispatch
    simp only [JVal.beq, hnra, Bool.false_eq_true, if_false, Bool.not_true, hfb,
      PyM.bind_eq, PyM.pure_eq, tellA, pure, dictGetD, dictGet?]
    rfl
  · have step1 : chat_router env2 uid "tweets about Delhi" [] =
        chatAfterDispatch env2 uid "tweets about Delhi" (jstr "get_twitter_posts")
          [("location", jstr "Delhi"), ("topic", jstr "general"), ("user_id", jstr uid)] true
          (jstr (fetch_twitter_posts env2 (jstr "Delhi") (jstr "general") 10))
          [Act.twitterCall (jstr "Delhi") (jstr "general") 10] := rfl
    rw [step1, fetchTw_rate env2 e2 hcreds2 hsearch2 h4292]
    unfold chatAfterDispatch
    simp only [PyM.bind_eq, PyM.pure_eq, tellA, pure, hok2]
    rfl

set_option maxHeartbeats 2000000 in
/-- C2 amended witness: with the Tweepy client raising "boom", the user sees
"Tweepy API Error: boom"; with it raising "429 rate", the user sees the LLM
fallback answer. -/
theorem C2_amended_witness :
    containsSub "429" "boom" = false ∧
    containsSub "429" "429 rate" = true ∧
    (chat_router envTweepyBoom "u1" "tweets about Delhi" [] =
      (Except.ok (some (BotResponse.mk (jstr "get_twitter_posts")
          (jobj [("location", jstr "Delhi"), ("topic", jstr "general"), ("user_id", jstr "u1")])
          (jstr ("Tweepy API Error: " ++ "boom")))),
       [Act.twitterCall (jstr "Delhi") (jstr "general") 10,
        Act.historyWrite "u1" "tweets about Delhi"
          (jobj [("intent", jstr "get_twitter_posts"),
                 ("entities", jobj [("location", jstr "Delhi"), ("topic", jstr "general"),
                                    ("user_id", jstr "u1")]),
                 ("reply", jstr ("Tweepy API Error: " ++ "boom"))]) (jstr "Delhi")]) ∧
     chat_router envTweepyRate "u1" "tweets about Delhi" [] =
      (Except.ok (some (BotResponse.mk (jstr "get_twitter_posts")
          (jobj [("location", jstr "Delhi"), ("topic", jstr "general"), ("user_id", jstr "u1")])
          (jstr "LLM ANSWER"))),
       [Act.twitterCall (jstr "Delhi") (jstr "general") 10,
        Act.geminiFallbackCall "tweets about Delhi" "u1",
        Act.historyWrite "u1" "tweets about Delhi"
          (jobj [("intent", jstr "get_twitter_posts"),
                 ("entities", jobj [("location", jstr "Delhi"), ("topic", jstr "general"),
                                    ("user_id", jstr "u1")]),
                 ("reply", jstr "LLM ANSWER")]) (jstr "Delhi")])) :=
  ⟨rfl, rfl, C2_amended envTweepyBoom envTweepyRate "u1" "boom" "429 rate" "LLM ANSWER"
    rfl rfl rfl rfl rfl rfl rfl rfl rfl rfl⟩

/-- C8 amended: the purge applies only to a cached places list that is
non-empty but all-blank, or whose joined text contains an error phrase — in
those cases the entry is cleared, a fresh live fetch runs, and the fresh
result is stored; a cache entry whose `places` list is empty (or missing)
is skipped but never removed (see the counterexample). -/
theorem C8_amended (env : Env) (loc : String) (places : List String)
    (fd : List (String × JVal))
    (hloc : loc.isEmpty = false)
    (hcache : env.getUnifiedData (jstr loc) "maps" =
       [jobj [("data", jobj [("places", jarr (places.map jstr))])]])
    (hne : places ≠ [])
    (hbad : places.all (fun p => pyStrip p == "") = true ∨
            ERROR_INDICATORS.any
              (fun ind => containsSub ind (pyLower (String.intercalate " " places))) = true)
    (hfresh : env.getMustVisitPlaces (jstr loc) 10 = jobj fd)
    (hnl : dictHas fd "\n" = false) :
    dispatch_tool env (jstr "get_must_visit_places") [("location", jstr loc)] "q" [] =
      (Except.ok (true, jobj fd),
       [Act.readCache (jstr loc) "maps", Act.clearCache (jstr loc) "maps",
        Act.placesCall (jstr loc) 10,
        Act.storeCache (jstr loc) "maps" (jobj
          [("places", jarr [jobj fd]), ("timestamp", jstr env.nowIso),
           ("source", jstr "google_maps_api")])]) := by
  have hmapne : (places.map jstr).isEmpty = false := map_jstr_isEmpty places hne
  have hlen : (places.map jstr).length > 0 := by
    cases places with
    | nil => exact absurd rfl hne
    | cons x xs => simp
  have hget : dictGet? fd "\n" = none := by
    cases h : dictGet? fd "\n" with
    | none => rfl
    | some v => simp [dictHas, h] at hnl
  unfold dispatch_tool dispatchTail
  by_cases hab : places.all (fun p => pyStrip p == "") = true
  · simp only [JVal.beq, tryCatchM, PyM.bind_eq, PyM.pure_eq, tellA, pure, raiseM, liftE,
      dictGetD, dictGet?, dictHas, pyTruthy, pyIn, pyIndex, pyLen, pyIterate,
      hloc, hcache, hmapne, allBlankM_map, pyJoin_map, hfresh, hnl, hab,
      String.reduceBEq, String.reduceEq, reduceIte, Option.getD, Option.isSome,
      List.isEmpty_cons, List.isEmpty_nil, hlen, gt_iff_lt, hget,
      Bool.not_true, Bool.false_eq_true, if_false, Bool.not_false, if_true,
      Bool.and_self, Bool.and_true, Bool.true_and, Bool.and_false, Bool.false_and,
      Bool.or_false, Bool.false_or]
    rfl
  · have hab' : places.all (fun p => pyStrip p == "") = false := by
      simpa using hab
    have hb2 : ERROR_INDICATORS.any
        (fun ind => containsSub ind (pyLower (String.intercalate " " places))) = true := by
      rcases hbad with hb1 | hb2
      · exact absurd hb1 hab
      · exact hb2
    simp only [JVal.beq, tryCatchM, PyM.bind_eq, PyM.pure_eq, tellA, pure, raiseM, liftE,
      dictGetD, dictGet?, dictHas, pyTruthy, pyIn, pyIndex, pyLen, pyIterate,
      hloc, hcache, hmapne, allBlankM_map, pyJoin_map, hfresh, hnl, hab', hb2,
      String.reduceBEq, String.reduceEq, reduceIte, Option.getD, Option.isSome,
      List.isEmpty_cons, List.isEmpty_nil, hlen, gt_iff_lt, hget,
      Bool.not_true, Bool.false_eq_true, if_false, Bool.not_false, if_true,
      Bool.and_self, Bool.and_true, Bool.true_and, Bool.and_false, Bool.false_and,
      Bool.or_false, Bool.false_or]
    rfl

/-- C8 amended witness: the cached entry "No places found near Pune"
carries an error phrase, so the dispatcher clears the cache, fetches fresh
places, stores them and returns the fresh reply. -/
theorem C8_amended_witness :
    ERROR_INDICATORS.any
      (fun ind => containsSub ind
        (pyLower (String.intercalate " " ["No places found near Pune"]))) = true ∧
    dispatch_tool envErrorPlaces (jstr "get_must_visit_places")
        [("location", jstr "Pune")] "q" [] =
      (Except.ok (true, jobj [("success", jbool true), ("places", jarr [jstr "P1"])]),
       [Act.readCache (jstr "Pune") "maps", Act.clearCache (jstr "Pune") "maps",
        Act.placesCall (jstr "Pune") 10,
        Act.storeCache (jstr "Pune") "maps" (jobj
          [("places", jarr [jobj [("success", jbool true), ("places", jarr [jstr "P1"])]]),
           ("timestamp", jstr envErrorPlaces.nowIso),
           ("source", jstr "google_maps_api")])]) :=
  ⟨rfl, C8_amended envErrorPlaces "Pune" ["No places found near Pune"]
      [("success", jbool true), ("places", jarr [jstr "P1"])]
      rfl rfl (List.cons_ne_nil _ _) (Or.inr rfl) rfl rfl⟩

/-- C10: the similar-query regex extracts the user id named in the message
("bob42"), but before dispatch `chat_router` unconditionally overwrites
`entities["user_id"]` with the caller id — so the lookup runs with, and the
returned entities contain, the caller's id, not the one in the text. -/
theorem C10_user_id_overwritten (env : Env) (uid rep : String)
    (hsim : env.similarQueries (jstr uid) (jstr "traffic") 5 = rep)
    (hnra : (rep == "REDDIT_ASYNC_CALL") = false)
    (hfb : needsGeminiFallback rep = false) :
    extract_intent env.geminiIntent "similar queries for user bob42 about traffic" =
      jobj [("intent", jstr "get_similar_queries"),
            ("entities", jobj [("user_id", jstr "bob42"), ("query", jstr "traffic")])] ∧
    chat_router env uid "similar queries for user bob42 about traffic" [] =
      (Except.ok (some (BotResponse.mk (jstr "get_similar_queries")
          (jobj [("user_id", jstr uid), ("query", jstr "traffic")])
          (jstr rep))),
       [Act.similarCall (jstr uid) (jstr "traffic"),
        Act.historyWrite uid "similar queries for user bob42 about traffic"
          (jobj [("intent", jstr "get_similar_queries"),
                 ("entities", jobj [("user_id", jstr uid), ("query", jstr "traffic")]),
                 ("reply", jstr rep)]) jnull]) := by
  refine ⟨rfl, ?_⟩
  have step1 : chat_router env uid "similar queries for user bob42 about traffic" [] =
      chatAfterDispatch env uid "similar queries for user bob42 about traffic"
        (jstr "get_similar_queries")
        [("user_id", jstr uid), ("query", jstr "traffic")] true
        (jstr (env.similarQueries (jstr uid) (jstr "traffic") 5))
        [Act.similarCall (jstr uid) (jstr "traffic")] := rfl
  rw [step1, hsim]
  unfold chatAfterDispatch
  simp only [JVal.beq, hnra, Bool.false_eq_true, if_false, Bool.not_true, hfb,
    PyM.bind_eq, PyM.pure_eq, tellA, pure, dictGetD, dictGet?]
  rfl

/-- C10 witness: caller "alice" sends a message naming "bob42"; the regex
extracts "bob42" but the lookup and the returned entities use "alice". -/
theorem C10_user_id_overwritten_witness :
    stubEnv.similarQueries (jstr "alice") (jstr "traffic") 5 = "Similar queries to x" ∧
    needsGeminiFallback "Similar queries to x" = false ∧
    (extract_intent stubEnv.geminiIntent "similar queries for user bob42 about traffic" =
      jobj [("intent", jstr "get_similar_queries"),
            ("entities", jobj [("user_id", jstr "bob42"), ("query", jstr "traffic")])] ∧
     chat_router stubEnv "alice" "similar queries for user bob42 about traffic" [] =
      (Except.ok (some (BotResponse.mk (jstr "get_similar_queries")
          (jobj [("user_id", jstr "alice"), ("query", jstr "traffic")])
          (jstr "Similar queries to x"))),
       [Act.similarCall (jstr "alice") (jstr "traffic"),
        Act.historyWrite "alice" "similar queries for user bob42 about traffic"
          (jobj [("intent", jstr "get_similar_queries"),
                 ("entities", jobj [("user_id", jstr "alice"), ("query", jstr "traffic")]),
                 ("reply", jstr "Similar queries to x")]) jnull])) :=
  ⟨rfl, rfl, C10_user_id_overwritten stubEnv "alice" "Similar queries to x" rfl rfl rfl⟩
